import Mathlib

/-!
Shallow embedding of the particle-portfolio front end.

Conventions of the embedding:
* JavaScript numbers are modelled as real numbers (`ℝ`); `Math.sin`,
  `Math.cos`, `Math.acos`, `Math.sqrt`, `Math.floor`, `Math.ceil`, `Math.PI`
  become `Real.sin`, `Real.cos`, `Real.arccos`, `Real.sqrt`, `Int.floor`,
  `Int.ceil`, `Real.pi`.
* A `Float32Array` is modelled as a `List ℝ`; `new Float32Array(n)` is a
  zero-filled list of length `n` (typed arrays are zero-initialised), and an
  indexed store `a[k] = v` is `List.set` (out-of-range stores on typed arrays
  are silently dropped, exactly like `List.set`).  Indexed loads are
  `List.getD _ 0` (all loads in this code base are in bounds).
* `Math.random` is modelled by an oracle `MathRand`: `mr i j` is the value of
  the j-th `Math.random()` call made while processing particle `i`.  Every
  shape generator receives the ambient oracle; generators that only use the
  seeded hash never consult it, mirroring the source, where those generators
  never call `Math.random`.
-/

/-- MathRand is the ambient `Math.random` oracle: draw `j` of particle `i`. -/
def MathRand : Type := ℕ → ℕ → ℝ

/-- PARTICLE_COUNT from ParticleScene.tsx: the module-wide particle count. -/
def PARTICLE_COUNT : ℕ := 16000

/-- seededRandom from ParticleScene.tsx:
`x = Math.sin(seed * 12.9898 + seed * 78.233) * 43758.5453; return x - Math.floor(x)`. -/
noncomputable def seededRandom (seed : ℝ) : ℝ :=
  Real.sin (seed * 12.9898 + seed * 78.233) * 43758.5453 -
    ⌊Real.sin (seed * 12.9898 + seed * 78.233) * 43758.5453⌋

theorem seededRandom_nonneg (seed : ℝ) : 0 ≤ seededRandom seed :=
  sub_nonneg.mpr (Int.floor_le _)

theorem seededRandom_lt_one (seed : ℝ) : seededRandom seed < 1 := by
  have h := Int.lt_floor_add_one (Real.sin (seed * 12.9898 + seed * 78.233) * 43758.5453)
  unfold seededRandom
  linarith

/-- writeTriple models the three stores
`positions[i*3] = x; positions[i*3+1] = y; positions[i*3+2] = z`. -/
def writeTriple (a : List ℝ) (i : ℕ) (p : ℝ × ℝ × ℝ) : List ℝ :=
  ((a.set (3 * i) p.1).set (3 * i + 1) p.2.1).set (3 * i + 2) p.2.2

/-- fillFrom models the generator loop
`for (let i = 0; i < n; i++) { positions[i*3] = ...; ... }` run on a
pre-existing buffer `base`. -/
def fillFrom (base : List ℝ) (f : ℕ → ℝ × ℝ × ℝ) (n : ℕ) : List ℝ :=
  (List.range n).foldl (fun a i => writeTriple a i (f i)) base

/-- zeroBuf models `new Float32Array(3 * n)` (typed arrays are zero-filled). -/
def zeroBuf (n : ℕ) : List ℝ := List.replicate (3 * n) 0

/-- fillBuf is a generator body: allocate `new Float32Array(3*n)` and run the
particle loop. -/
def fillBuf (f : ℕ → ℝ × ℝ × ℝ) (n : ℕ) : List ℝ := fillFrom (zeroBuf n) f n

theorem length_writeTriple (a : List ℝ) (i : ℕ) (p : ℝ × ℝ × ℝ) :
    (writeTriple a i p).length = a.length := by
  simp [writeTriple]

theorem length_foldl_writeTriple (f : ℕ → ℝ × ℝ × ℝ) :
    ∀ (l : List ℕ) (base : List ℝ),
      (l.foldl (fun a i => writeTriple a i (f i)) base).length = base.length := by
  intro l
  induction l with
  | nil => intro base; rfl
  | cons j t ih =>
      intro base
      simpa [List.foldl_cons, length_writeTriple] using
        (ih (writeTriple base j (f j))).trans (length_writeTriple base j (f j))

theorem length_fillFrom (base : List ℝ) (f : ℕ → ℝ × ℝ × ℝ) (n : ℕ) :
    (fillFrom base f n).length = base.length :=
  length_foldl_writeTriple f (List.range n) base

theorem length_fillBuf (f : ℕ → ℝ × ℝ × ℝ) (n : ℕ) :
    (fillBuf f n).length = 3 * n := by
  simpa [zeroBuf] using length_fillFrom (zeroBuf n) f n

theorem getElem?_writeTriple_ne (a : List ℝ) (i : ℕ) (p : ℝ × ℝ × ℝ) (k : ℕ)
    (h0 : k ≠ 3 * i) (h1 : k ≠ 3 * i + 1) (h2 : k ≠ 3 * i + 2) :
    (writeTriple a i p)[k]? = a[k]? := by
  unfold writeTriple
  rw [List.getElem?_set_ne (fun h => h2 h.symm),
      List.getElem?_set_ne (fun h => h1 h.symm),
      List.getElem?_set_ne (fun h => h0 h.symm)]

theorem getElem?_writeTriple_self (a : List ℝ) (i : ℕ) (p : ℝ × ℝ × ℝ)
    (h : 3 * i + 2 < a.length) :
    (writeTriple a i p)[3 * i]? = some p.1 ∧
    (writeTriple a i p)[3 * i + 1]? = some p.2.1 ∧
    (writeTriple a i p)[3 * i + 2]? = some p.2.2 := by
  unfold writeTriple
  refine ⟨?_, ?_, ?_⟩
  · rw [List.getElem?_set_ne (by omega), List.getElem?_set_ne (by omega)]
    exact List.getElem?_set_eq_of_lt _ (by omega)
  · rw [List.getElem?_set_ne (by omega)]
    have h1 : 3 * i + 1 < ((a.set (3 * i) p.1)).length := by simpa using by omega
    exact List.getElem?_set_eq_of_lt _ h1
  · have h2 : 3 * i + 2 < (((a.set (3 * i) p.1)).set (3 * i + 1) p.2.1).length := by
      simpa using h
    exact List.getElem?_set_eq_of_lt _ h2

theorem getElem?_foldl_writeTriple_untouched (f : ℕ → ℝ × ℝ × ℝ) (k : ℕ) :
    ∀ (l : List ℕ) (base : List ℝ),
      (∀ i ∈ l, k < 3 * i ∨ 3 * i + 2 < k) →
      (l.foldl (fun a i => writeTriple a i (f i)) base)[k]? = base[k]? := by
  intro l
  induction l with
  | nil => intro base _; rfl
  | cons j t ih =>
      intro base hl
      have hj := hl j (List.mem_cons_self _ _)
      have ht : ∀ i ∈ t, k < 3 * i ∨ 3 * i + 2 < k :=
        fun i hi => hl i (List.mem_cons_of_mem _ hi)
      calc ((j :: t).foldl (fun a i => writeTriple a i (f i)) base)[k]?
          = (t.foldl (fun a i => writeTriple a i (f i)) (writeTriple base j (f j)))[k]? := rfl
        _ = (writeTriple base j (f j))[k]? := ih _ ht
        _ = base[k]? := getElem?_writeTriple_ne base j (f j) k
            (by omega) (by omega) (by omega)

theorem getElem?_range'_foldl_writeTriple (f : ℕ → ℝ × ℝ × ℝ) (L : ℕ) :
    ∀ (len s : ℕ) (base : List ℝ) (j : ℕ),
      base.length = L → (∀ i, i ∈ List.range' s len → 3 * i + 2 < L) →
      s ≤ j → j < s + len →
      ((List.range' s len).foldl (fun a i => writeTriple a i (f i)) base)[3 * j]? = some (f j).1 ∧
      ((List.range' s len).foldl (fun a i => writeTriple a i (f i)) base)[3 * j + 1]? = some (f j).2.1 ∧
      ((List.range' s len).foldl (fun a i => writeTriple a i (f i)) base)[3 * j + 2]? = some (f j).2.2 := by
  intro len
  induction len with
  | zero => intro s base j _ _ hsj hjs; omega
  | succ m ih =>
      intro s base j hbase hmem hsj hjs
      have hrange : List.range' s (m + 1) = s :: List.range' (s + 1) m := by
        simp [List.range'_succ]
      rcases Nat.eq_or_lt_of_le hsj with heq | hlt
      · subst heq
        have hsb : 3 * s + 2 < base.length := by
          rw [hbase]; exact hmem s (by rw [hrange]; exact List.mem_cons_self _ _)
        have hw := getElem?_writeTriple_self base s (f s) hsb
        have huntouched : ∀ k, k = 3 * s ∨ k = 3 * s + 1 ∨ k = 3 * s + 2 →
            ((List.range' (s + 1) m).foldl (fun a i => writeTriple a i (f i))
              (writeTriple base s (f s)))[k]? = (writeTriple base s (f s))[k]? := by
          intro k hk
          refine getElem?_foldl_writeTriple_untouched f k _ _ ?_
          intro i hi
          have : s + 1 ≤ i := (List.mem_range'_1.mp hi).1
          omega
        rw [hrange]
        refine ⟨?_, ?_, ?_⟩
        · rw [List.foldl_cons, huntouched _ (Or.inl rfl)]; exact hw.1
        · rw [List.foldl_cons, huntouched _ (Or.inr (Or.inl rfl))]; exact hw.2.1
        · rw [List.foldl_cons, huntouched _ (Or.inr (Or.inr rfl))]; exact hw.2.2
      · rw [hrange, List.foldl_cons]
        refine ih (s + 1) (writeTriple base s (f s)) j ?_ ?_ hlt (by omega)
        · rw [length_writeTriple]; exact hbase
        · intro i hi
          refine hmem i ?_
          rw [hrange]
          exact List.mem_cons_of_mem _ hi

theorem getElem?_fillFrom (base : List ℝ) (f : ℕ → ℝ × ℝ × ℝ) (n : ℕ) (j : ℕ)
    (hbase : base.length = 3 * n) (hj : j < n) :
    (fillFrom base f n)[3 * j]? = some (f j).1 ∧
    (fillFrom base f n)[3 * j + 1]? = some (f j).2.1 ∧
    (fillFrom base f n)[3 * j + 2]? = some (f j).2.2 := by
  unfold fillFrom
  rw [List.range_eq_range']
  refine getElem?_range'_foldl_writeTriple f (3 * n) n 0 base j hbase ?_ (by omega) (by omega)
  intro i hi
  have := (List.mem_range'_1.mp hi).2
  omega

theorem getElem?_fillBuf (f : ℕ → ℝ × ℝ × ℝ) (n : ℕ) (j : ℕ) (hj : j < n) :
    (fillBuf f n)[3 * j]? = some (f j).1 ∧
    (fillBuf f n)[3 * j + 1]? = some (f j).2.1 ∧
    (fillBuf f n)[3 * j + 2]? = some (f j).2.2 :=
  getElem?_fillFrom (zeroBuf n) f n j (by simp [zeroBuf]) hj

/-- fillsAllSlots g f says: buffer `g` has exactly length `3 * PARTICLE_COUNT`
and, for every particle `i`, its three slots hold exactly the values computed
by the per-particle branch function `f` — i.e. no slot is skipped or out of
bounds, and (in the real-number semantics, where `Real.sin`, `Real.cos`,
`Real.sqrt` of nonnegative arguments, and field operations on finite values
are total and finite) every element is a genuine finite value. -/
def fillsAllSlots (g : List ℝ) (f : ℕ → ℝ × ℝ × ℝ) : Prop :=
  g.length = 3 * PARTICLE_COUNT ∧
  ∀ i, i < PARTICLE_COUNT →
    g[3 * i]? = some (f i).1 ∧ g[3 * i + 1]? = some (f i).2.1 ∧
    g[3 * i + 2]? = some (f i).2.2

theorem fillBuf_fillsAllSlots (f : ℕ → ℝ × ℝ × ℝ) :
    fillsAllSlots (fillBuf f PARTICLE_COUNT) f :=
  ⟨length_fillBuf f PARTICLE_COUNT, fun i hi => getElem?_fillBuf f PARTICLE_COUNT i hi⟩

/-- gridSizeX from generateMountainPositions: `Math.ceil(Math.sqrt(PARTICLE_COUNT))`. -/
noncomputable def gridSizeX : ℕ := (⌈Real.sqrt (PARTICLE_COUNT : ℝ)⌉).toNat

/-- gridSizeZ from generateMountainPositions: `Math.ceil(PARTICLE_COUNT / gridSizeX)`. -/
noncomputable def gridSizeZ : ℕ := (⌈(PARTICLE_COUNT : ℝ) / (gridSizeX : ℝ)⌉).toNat

/-- terrainDepth from generateMountainPositions (total Z depth of the tile). -/
def terrainDepth : ℝ := 50

/-- tileFreq from generateMountainPositions: `Math.PI * 2 / terrainDepth`. -/
noncomputable def tileFreq : ℝ := Real.pi * 2 / terrainDepth

/-- mountainPoint is the body of the generateMountainPositions loop for
particle `i`.  `i % gridSizeX` and `Math.floor(i / gridSizeX)` on nonnegative
integers coincide with natural `%` and `/`. -/
noncomputable def mountainPoint (i : ℕ) : ℝ × ℝ × ℝ :=
  let gridX : ℕ := i % gridSizeX
  let gridZ : ℕ := i / gridSizeX
  let x : ℝ := ((gridX : ℝ) / (gridSizeX : ℝ) - 0.5) * 55
  let z : ℝ := ((gridZ : ℝ) / (gridSizeZ : ℝ) - 0.5) * terrainDepth
  let hills : ℝ :=
    Real.sin (x * 0.8) * 1.5 +
    Real.sin (z * tileFreq * 2) * 1.2 +
    Real.sin (x * 1.5 + z * tileFreq * 3) * 0.8 +
    Real.sin (x * 2.5) * 0.5 +
    Real.cos (z * tileFreq * 5) * 0.4 +
    Real.sin (x * 3.5 + z * tileFreq * 7) * 0.25 +
    seededRandom ((i : ℝ) * 99.9) * 0.15
  let y : ℝ := -3 + hills * 0.6
  (x, y, z)

/-- generateMountainPositions from ParticleScene.tsx (seeded; ignores the
ambient `Math.random` oracle because the source never calls it). -/
noncomputable def generateMountainPositions (_mr : MathRand) : List ℝ :=
  fillBuf mountainPoint PARTICLE_COUNT

/-- visibleParticles from generateSpherePositions. -/
def visibleParticles : ℕ := 8000

/-- spherePoint is the body of the generateSpherePositions loop for particle `i`. -/
noncomputable def spherePoint (i : ℕ) : ℝ × ℝ × ℝ :=
  let radius : ℝ := 3
  if i < visibleParticles then
    let phi : ℝ := Real.arccos (1 - 2 * ((i : ℝ) + 0.5) / (visibleParticles : ℝ))
    let theta : ℝ := Real.pi * (1 + Real.sqrt 5) * ((i : ℝ) + 0.5)
    (radius * Real.sin phi * Real.cos theta,
     radius * Real.sin phi * Real.sin theta,
     radius * Real.cos phi)
  else
    let phi : ℝ := Real.arccos (1 - 2 * seededRandom ((i : ℝ) * 7.7))
    let theta : ℝ := seededRandom ((i : ℝ) * 8.8) * Real.pi * 2
    let cloudRadius : ℝ := 15 + seededRandom ((i : ℝ) * 9.9) * 20
    (cloudRadius * Real.sin phi * Real.cos theta,
     cloudRadius * Real.sin phi * Real.sin theta,
     cloudRadius * Real.cos phi)

/-- generateSpherePositions from ParticleScene.tsx (seeded). -/
noncomputable def generateSpherePositions (_mr : MathRand) : List ℝ :=
  fillBuf spherePoint PARTICLE_COUNT

/-- clusterCenters from generateHeaventreePositions. -/
def clusterCenters : List (ℝ × ℝ × ℝ) :=
  [(0, 2.5, 0), (1.0, 1.6, 0.5), (-0.9, 1.5, 0.6), (0.3, 1.0, -0.9),
   (-0.5, 2.0, 0.8), (0.7, 0.8, 0.6), (-0.6, 0.9, -0.5)]

/-- heaventreePoint is the body of the generateHeaventreePositions loop. -/
noncomputable def heaventreePoint (i : ℕ) : ℝ × ℝ × ℝ :=
  let sect : ℝ := seededRandom ((i : ℝ) * 1.1)
  if sect < 0.12 then
    let t : ℝ := seededRandom ((i : ℝ) * 2.3)
    let trunkHeight : ℝ := t * 3 - 2.5
    let trunkRadius : ℝ := 0.2 + (1 - t) * 0.15
    let angle : ℝ := seededRandom ((i : ℝ) * 3.1) * Real.pi * 2
    let curve : ℝ := Real.sin (t * Real.pi) * 0.15
    (Real.cos angle * trunkRadius + curve, trunkHeight, Real.sin angle * trunkRadius)
  else
    let clusterIdx : ℕ := (⌊seededRandom ((i : ℝ) * 4.1) * 7⌋).toNat
    let cluster : ℝ × ℝ × ℝ := clusterCenters.getD clusterIdx (0, 2.5, 0)
    let phi : ℝ := Real.arccos (1 - 2 * seededRandom ((i : ℝ) * 5.2))
    let theta : ℝ := seededRandom ((i : ℝ) * 6.3) * Real.pi * 2
    let r : ℝ := seededRandom ((i : ℝ) * 7.1) * 1.3
    (cluster.1 + r * Real.sin phi * Real.cos theta,
     cluster.2.1 + r * Real.sin phi * Real.sin theta,
     cluster.2.2 + r * Real.cos phi)

/-- generateHeaventreePositions from ParticleScene.tsx (seeded). -/
noncomputable def generateHeaventreePositions (_mr : MathRand) : List ℝ :=
  fillBuf heaventreePoint PARTICLE_COUNT

/-- originiumPoint is the body of the generateOriginiumPositions loop. -/
noncomputable def originiumPoint (i : ℕ) : ℝ × ℝ × ℝ :=
  let sect : ℝ := seededRandom ((i : ℝ) * 1.2)
  if sect < 0.6 then
    let edgeIdx : ℤ := ⌊seededRandom ((i : ℝ) * 2.1) * 6⌋
    let angle1 : ℝ := ((edgeIdx : ℝ) / 6) * Real.pi * 2
    let angle2 : ℝ := (((edgeIdx : ℝ) + 1) / 6) * Real.pi * 2
    let t : ℝ := seededRandom ((i : ℝ) * 3.3)
    let radius : ℝ := 2.5
    let height : ℝ := (seededRandom ((i : ℝ) * 4.1) - 0.5) * 4
    (Real.cos angle1 * radius * (1 - t) + Real.cos angle2 * radius * t,
     height,
     Real.sin angle1 * radius * (1 - t) + Real.sin angle2 * radius * t)
  else if sect < 0.8 then
    let angle : ℝ := seededRandom ((i : ℝ) * 5.2) * Real.pi * 2
    let radius : ℝ := seededRandom ((i : ℝ) * 6.1) * 2.5
    let top : ℝ := if seededRandom ((i : ℝ) * 7.3) > 0.5 then 2 else -2
    (Real.cos angle * radius, top, Real.sin angle * radius)
  else
    let angle : ℝ := seededRandom ((i : ℝ) * 8.2) * Real.pi * 2
    let radius : ℝ := seededRandom ((i : ℝ) * 9.1) * 1.5
    let height : ℝ := (seededRandom ((i : ℝ) * 10.3) - 0.5) * 3
    (Real.cos angle * radius, height, Real.sin angle * radius)

/-- generateOriginiumPositions from ParticleScene.tsx (seeded). -/
noncomputable def generateOriginiumPositions (_mr : MathRand) : List ℝ :=
  fillBuf originiumPoint PARTICLE_COUNT

/-- islandRadius from generateRhodesPositions: irregular coastline radius. -/
noncomputable def islandRadius (angle : ℝ) : ℝ :=
  2.5 + Real.sin (angle * 2) * 0.6 + Real.sin (angle * 3 + 1) * 0.4 +
    Real.sin (angle * 5 + 2) * 0.25 + Real.cos (angle * 4) * 0.3

/-- rhodesPoint is the body of the generateRhodesPositions loop. -/
noncomputable def rhodesPoint (i : ℕ) : ℝ × ℝ × ℝ :=
  let sect : ℝ := seededRandom ((i : ℝ) * 1.3)
  if sect < 0.7 then
    let angle : ℝ := seededRandom ((i : ℝ) * 2.1) * Real.pi * 2
    let maxR : ℝ := islandRadius angle
    let r : ℝ := Real.sqrt (seededRandom ((i : ℝ) * 3.2)) * maxR
    let x : ℝ := Real.cos angle * r
    let y : ℝ := Real.sin angle * r
    let z : ℝ := (seededRandom ((i : ℝ) * 4.3) - 0.3) * 0.4 +
      Real.sin (x * 2) * 0.1 + Real.cos (y * 2) * 0.1
    (x, y, z)
  else
    let angle : ℝ := seededRandom ((i : ℝ) * 5.1) * Real.pi * 2
    let coastR : ℝ := islandRadius angle * (0.95 + seededRandom ((i : ℝ) * 6.2) * 0.1)
    (Real.cos angle * coastR, Real.sin angle * coastR,
     (seededRandom ((i : ℝ) * 7.3) - 0.5) * 0.15)

/-- generateRhodesPositions from ParticleScene.tsx (seeded). -/
noncomputable def generateRhodesPositions (_mr : MathRand) : List ℝ :=
  fillBuf rhodesPoint PARTICLE_COUNT

/-- talosSphereCount from generateTalosPositions:
`Math.floor(PARTICLE_COUNT * 0.65)`. -/
noncomputable def talosSphereCount : ℕ := (⌊(PARTICLE_COUNT : ℝ) * 0.65⌋).toNat

/-- talosPoint is the body of the generateTalosPositions loop. -/
noncomputable def talosPoint (i : ℕ) : ℝ × ℝ × ℝ :=
  let radius : ℝ := 2
  if i < talosSphereCount then
    let phi : ℝ := Real.arccos (1 - 2 * ((i : ℝ) + 0.5) / (talosSphereCount : ℝ))
    let theta : ℝ := Real.pi * (1 + Real.sqrt 5) * ((i : ℝ) + 0.5)
    (radius * Real.sin phi * Real.cos theta,
     radius * Real.cos phi,
     radius * Real.sin phi * Real.sin theta)
  else
    let ringIdx : ℕ := i - talosSphereCount
    let angle : ℝ := seededRandom ((ringIdx : ℝ) * 4.3) * Real.pi * 2
    let ringRadius : ℝ := 2.5 + seededRandom ((ringIdx : ℝ) * 5.1) * 0.4
    let tilt : ℝ := Real.pi * 0.14
    let x : ℝ := Real.cos angle * ringRadius
    let y : ℝ := Real.sin angle * ringRadius * Real.sin tilt
    let z : ℝ := Real.sin angle * ringRadius * Real.cos tilt
    let thick : ℝ := (seededRandom ((ringIdx : ℝ) * 6.2) - 0.5) * 0.08
    (x + thick * 0.3, y + thick * Real.cos tilt, z + thick * Real.sin tilt)

/-- generateTalosPositions from ParticleScene.tsx (seeded). -/
noncomputable def generateTalosPositions (_mr : MathRand) : List ℝ :=
  fillBuf talosPoint PARTICLE_COUNT

/-- endfieldVertices from generateEndfieldPositions (diamond vertices). -/
def endfieldVertices : List (ℝ × ℝ × ℝ) :=
  [(0, 3, 0), (0, -3, 0), (2, 0, 0), (-2, 0, 0), (0, 0, 2), (0, 0, -2)]

/-- endfieldPoint is the body of the generateEndfieldPositions loop. -/
noncomputable def endfieldPoint (i : ℕ) : ℝ × ℝ × ℝ :=
  let sect : ℝ := seededRandom ((i : ℝ) * 1.5)
  if sect < 0.7 then
    let edgeIdx : ℕ := (⌊seededRandom ((i : ℝ) * 2.1) * 8⌋).toNat
    let t : ℝ := seededRandom ((i : ℝ) * 3.2)
    let v1 : ℝ × ℝ × ℝ := endfieldVertices.getD (edgeIdx % 6) (0, 0, 0)
    let v2 : ℝ × ℝ × ℝ := endfieldVertices.getD ((edgeIdx + 1) % 6) (0, 0, 0)
    (v1.1 * (1 - t) + v2.1 * t + (seededRandom ((i : ℝ) * 4.1) - 0.5) * 0.2,
     v1.2.1 * (1 - t) + v2.2.1 * t + (seededRandom ((i : ℝ) * 5.2) - 0.5) * 0.2,
     v1.2.2 * (1 - t) + v2.2.2 * t + (seededRandom ((i : ℝ) * 6.3) - 0.5) * 0.2)
  else
    let radius : ℝ := seededRandom ((i : ℝ) * 7.1) * 1.5
    let angle : ℝ := seededRandom ((i : ℝ) * 8.2) * Real.pi * 2
    let height : ℝ := (seededRandom ((i : ℝ) * 9.3) - 0.5) * 4
    (Real.cos angle * radius * 0.5, height, Real.sin angle * radius * 0.5)

/-- generateEndfieldPositions from ParticleScene.tsx (seeded). -/
noncomputable def generateEndfieldPositions (_mr : MathRand) : List ℝ :=
  fillBuf endfieldPoint PARTICLE_COUNT

/-- ringPositions from generateSpaceshipPositions: Z positions of the 4 rings. -/
def ringPositions : List ℝ := [-3, 0, 3, 5]

/-- spaceshipPoint is the body of the generateSpaceshipPositions loop for
particle `i`.  This generator uses true randomness: `mr i j` is the j-th
`Math.random()` call of iteration `i`, in execution order. -/
noncomputable def spaceshipPoint (mr : MathRand) (i : ℕ) : ℝ × ℝ × ℝ :=
  let shipLength : ℝ := 18
  let spineRadius : ℝ := 0.5
  let ringRadius : ℝ := 4.2
  let ringThickness : ℝ := 0.28
  let sect : ℝ := mr i 0
  let base : ℝ × ℝ × ℝ :=
    if sect < 0.20 then
      let angle : ℝ := mr i 1 * Real.pi * 2
      let zPos : ℝ := (mr i 2 - 0.5) * shipLength
      let radiusVar : ℝ := spineRadius * (1 + 0.3 * Real.sin ((zPos / shipLength + 0.5) * Real.pi))
      (Real.cos angle * radiusVar, Real.sin angle * radiusVar, zPos)
    else if sect < 0.55 then
      let ringIdx : ℕ := (⌊mr i 1 * 4⌋).toNat
      let ringZ : ℝ := ringPositions.getD ringIdx 0
      let torusAngle : ℝ := mr i 2 * Real.pi * 2
      let tubeAngle : ℝ := mr i 3 * Real.pi * 2
      let tubeRadius : ℝ := ringThickness + mr i 4 * 0.15
      ((ringRadius + tubeRadius * Real.cos tubeAngle) * Real.cos torusAngle,
       (ringRadius + tubeRadius * Real.cos tubeAngle) * Real.sin torusAngle,
       ringZ + tubeRadius * Real.sin tubeAngle)
    else if sect < 0.65 then
      let ringIdx : ℕ := (⌊mr i 1 * 4⌋).toNat
      let ringZ : ℝ := ringPositions.getD ringIdx 0
      let spokeAngle : ℝ := (⌊mr i 2 * 8⌋ : ℝ) * (Real.pi / 4)
      let spokePos : ℝ := mr i 3
      let spokeRadius : ℝ := spineRadius + spokePos * (ringRadius - spineRadius - ringThickness)
      (Real.cos spokeAngle * spokeRadius + (mr i 4 - 0.5) * 0.15,
       Real.sin spokeAngle * spokeRadius + (mr i 5 - 0.5) * 0.15,
       ringZ + (mr i 6 - 0.5) * 0.3)
    else if sect < 0.75 then
      let engineZ : ℝ := -shipLength / 2 - 1
      let engineCount : ℝ := 4
      let engineIdx : ℤ := ⌊mr i 1 * engineCount⌋
      let engineAngle : ℝ := ((engineIdx : ℝ) / engineCount) * Real.pi * 2 + Real.pi / 4
      let engineOffset : ℝ := 1.2
      let conePos : ℝ := mr i 2
      let coneRadius : ℝ := 0.8 * (1 - conePos * 0.5)
      let localAngle : ℝ := mr i 3 * Real.pi * 2
      (Real.cos engineAngle * engineOffset + Real.cos localAngle * coneRadius,
       Real.sin engineAngle * engineOffset + Real.sin localAngle * coneRadius,
       engineZ - conePos * 2)
    else if sect < 0.82 then
      let engineZ : ℝ := -shipLength / 2 - 3
      let engineCount : ℝ := 4
      let engineIdx : ℤ := ⌊mr i 1 * engineCount⌋
      let engineAngle : ℝ := ((engineIdx : ℝ) / engineCount) * Real.pi * 2 + Real.pi / 4
      let engineOffset : ℝ := 1.2
      let exhaustSpread : ℝ := mr i 2 * 0.6
      let localAngle : ℝ := mr i 3 * Real.pi * 2
      (Real.cos engineAngle * engineOffset + Real.cos localAngle * exhaustSpread,
       Real.sin engineAngle * engineOffset + Real.sin localAngle * exhaustSpread,
       engineZ - mr i 4 * 1.5)
    else if sect < 0.90 then
      let noseStart : ℝ := shipLength / 2
      let noseLength : ℝ := 3
      let nosePos : ℝ := mr i 1
      let noseRadius : ℝ := 0.8 * (1 - nosePos * 0.8)
      let angle : ℝ := mr i 2 * Real.pi * 2
      (Real.cos angle * noseRadius, Real.sin angle * noseRadius,
       noseStart + nosePos * noseLength)
    else if sect < 0.95 then
      let ringIdx : ℕ := (⌊mr i 1 * 3⌋).toNat
      let z1 : ℝ := ringPositions.getD ringIdx 0
      let z2 : ℝ := ringPositions.getD (ringIdx + 1) 0
      let trussAngle : ℝ := (⌊mr i 2 * 4⌋ : ℝ) * (Real.pi / 2)
      let trussRadius : ℝ := ringRadius * 0.85
      (Real.cos trussAngle * trussRadius + (mr i 4 - 0.5) * 0.3,
       Real.sin trussAngle * trussRadius + (mr i 5 - 0.5) * 0.3,
       z1 + mr i 3 * (z2 - z1))
    else
      let angle : ℝ := mr i 1 * Real.pi * 2
      let zPos : ℝ := (mr i 2 - 0.5) * shipLength * 0.8
      let detailRadius : ℝ := spineRadius + 0.1 + mr i 3 * 0.3
      (Real.cos angle * detailRadius, Real.sin angle * detailRadius, zPos)
  let tiltX : ℝ := -Real.pi * 0.35
  let tiltY : ℝ := Real.pi * 0.25
  let y1 : ℝ := base.2.1 * Real.cos tiltX - base.2.2 * Real.sin tiltX
  let z1 : ℝ := base.2.1 * Real.sin tiltX + base.2.2 * Real.cos tiltX
  let x2 : ℝ := base.1 * Real.cos tiltY + z1 * Real.sin tiltY
  let z2 : ℝ := -base.1 * Real.sin tiltY + z1 * Real.cos tiltY
  (x2, y1, z2)

/-- generateSpaceshipPositions from ParticleScene.tsx (true randomness). -/
noncomputable def generateSpaceshipPositions (mr : MathRand) : List ℝ :=
  fillBuf (spaceshipPoint mr) PARTICLE_COUNT

/-- instagramPoint is the body of the generateInstagramPositions loop. -/
noncomputable def instagramPoint (i : ℕ) : ℝ × ℝ × ℝ :=
  let size : ℝ := 3
  let sect : ℝ := seededRandom ((i : ℝ) * 1.1)
  if sect < 0.5 then
    let t : ℝ := seededRandom ((i : ℝ) * 2.1) * 4
    let side : ℤ := ⌊t⌋
    let pos : ℝ := t - (side : ℝ)
    let xy : ℝ × ℝ :=
      if side = 0 then (-size + pos * 2 * size, size)
      else if side = 1 then (size, size - pos * 2 * size)
      else if side = 2 then (size - pos * 2 * size, -size)
      else (-size, -size + pos * 2 * size)
    (xy.1, xy.2, (seededRandom ((i : ℝ) * 3.1) - 0.5) * 0.2)
  else if sect < 0.75 then
    let angle : ℝ := seededRandom ((i : ℝ) * 4.1) * Real.pi * 2
    let radius : ℝ := 1.2 + seededRandom ((i : ℝ) * 5.1) * 0.15
    (Real.cos angle * radius, Real.sin angle * radius,
     (seededRandom ((i : ℝ) * 6.1) - 0.5) * 0.15)
  else if sect < 0.9 then
    let angle : ℝ := seededRandom ((i : ℝ) * 7.1) * Real.pi * 2
    let radius : ℝ := 0.6 + seededRandom ((i : ℝ) * 8.1) * 0.1
    (Real.cos angle * radius, Real.sin angle * radius,
     (seededRandom ((i : ℝ) * 9.1) - 0.5) * 0.1)
  else
    let angle : ℝ := seededRandom ((i : ℝ) * 10.1) * Real.pi * 2
    let radius : ℝ := seededRandom ((i : ℝ) * 11.1) * 0.3
    (2.2 + Real.cos angle * radius, 2.2 + Real.sin angle * radius,
     (seededRandom ((i : ℝ) * 12.1) - 0.5) * 0.1)

/-- generateInstagramPositions from ParticleScene.tsx (seeded). -/
noncomputable def generateInstagramPositions (_mr : MathRand) : List ℝ :=
  fillBuf instagramPoint PARTICLE_COUNT

/-- xLogoPoint is the body of the generateXPositions loop. -/
noncomputable def xLogoPoint (i : ℕ) : ℝ × ℝ × ℝ :=
  let size : ℝ := 3
  let sect : ℝ := seededRandom ((i : ℝ) * 1.2)
  if sect < 0.5 then
    let t : ℝ := seededRandom ((i : ℝ) * 2.2)
    (-size + t * 2 * size + (seededRandom ((i : ℝ) * 3.2) - 0.5) * 0.3,
     size - t * 2 * size + (seededRandom ((i : ℝ) * 4.2) - 0.5) * 0.3,
     (seededRandom ((i : ℝ) * 5.2) - 0.5) * 0.2)
  else
    let t : ℝ := seededRandom ((i : ℝ) * 6.2)
    (size - t * 2 * size + (seededRandom ((i : ℝ) * 7.2) - 0.5) * 0.3,
     size - t * 2 * size + (seededRandom ((i : ℝ) * 8.2) - 0.5) * 0.3,
     (seededRandom ((i : ℝ) * 9.2) - 0.5) * 0.2)

/-- generateXPositions from ParticleScene.tsx (seeded). -/
noncomputable def generateXPositions (_mr : MathRand) : List ℝ :=
  fillBuf xLogoPoint PARTICLE_COUNT

/-- youTubePoint is the body of the generateYouTubePositions loop. -/
noncomputable def youTubePoint (i : ℕ) : ℝ × ℝ × ℝ :=
  let sect : ℝ := seededRandom ((i : ℝ) * 1.3)
  if sect < 0.6 then
    let t : ℝ := seededRandom ((i : ℝ) * 2.3) * 4
    let side : ℤ := ⌊t⌋
    let pos : ℝ := t - (side : ℝ)
    let width : ℝ := 4
    let height : ℝ := 2.8
    let xy : ℝ × ℝ :=
      if side = 0 then (-width + pos * 2 * width, height)
      else if side = 1 then (width, height - pos * 2 * height)
      else if side = 2 then (width - pos * 2 * width, -height)
      else (-width, -height + pos * 2 * height)
    (xy.1, xy.2, (seededRandom ((i : ℝ) * 3.3) - 0.5) * 0.2)
  else
    let t : ℝ := seededRandom ((i : ℝ) * 4.3) * 3
    let edge : ℤ := ⌊t⌋
    let pos : ℝ := t - (edge : ℝ)
    let triSize : ℝ := 1.5
    let v1 : ℝ × ℝ := (-0.8, triSize)
    let v2 : ℝ × ℝ := (-0.8, -triSize)
    let v3 : ℝ × ℝ := (1.8, 0)
    let xy : ℝ × ℝ :=
      if edge = 0 then (v1.1 + (v2.1 - v1.1) * pos, v1.2 + (v2.2 - v1.2) * pos)
      else if edge = 1 then (v2.1 + (v3.1 - v2.1) * pos, v2.2 + (v3.2 - v2.2) * pos)
      else (v3.1 + (v1.1 - v3.1) * pos, v3.2 + (v1.2 - v3.2) * pos)
    (xy.1, xy.2, (seededRandom ((i : ℝ) * 5.3) - 0.5) * 0.15)

/-- generateYouTubePositions from ParticleScene.tsx (seeded). -/
noncomputable def generateYouTubePositions (_mr : MathRand) : List ℝ :=
  fillBuf youTubePoint PARTICLE_COUNT

/-- linkedInPoint is the body of the generateLinkedInPositions loop. -/
noncomputable def linkedInPoint (i : ℕ) : ℝ × ℝ × ℝ :=
  let size : ℝ := 3
  let sect : ℝ := seededRandom ((i : ℝ) * 1.4)
  if sect < 0.4 then
    let t : ℝ := seededRandom ((i : ℝ) * 2.4) * 4
    let side : ℤ := ⌊t⌋
    let pos : ℝ := t - (side : ℝ)
    let xy : ℝ × ℝ :=
      if side = 0 then (-size + pos * 2 * size, size)
      else if side = 1 then (size, size - pos * 2 * size)
      else if side = 2 then (size - pos * 2 * size, -size)
      else (-size, -size + pos * 2 * size)
    (xy.1, xy.2, (seededRandom ((i : ℝ) * 3.4) - 0.5) * 0.2)
  else if sect < 0.55 then
    let angle : ℝ := seededRandom ((i : ℝ) * 4.4) * Real.pi * 2
    let radius : ℝ := seededRandom ((i : ℝ) * 5.4) * 0.4
    (-1.5 + Real.cos angle * radius, 1.8 + Real.sin angle * radius,
     (seededRandom ((i : ℝ) * 6.4) - 0.5) * 0.1)
  else if sect < 0.7 then
    let t : ℝ := seededRandom ((i : ℝ) * 7.4)
    (-1.5 + (seededRandom ((i : ℝ) * 8.4) - 0.5) * 0.3, 1 - t * 2.5,
     (seededRandom ((i : ℝ) * 9.4) - 0.5) * 0.1)
  else
    let part : ℝ := seededRandom ((i : ℝ) * 10.4)
    if part < 0.4 then
      let t : ℝ := seededRandom ((i : ℝ) * 11.4)
      (0.3 + (seededRandom ((i : ℝ) * 12.4) - 0.5) * 0.25, 0.8 - t * 2.3,
       (seededRandom ((i : ℝ) * 13.4) - 0.5) * 0.1)
    else if part < 0.6 then
      let angle : ℝ := seededRandom ((i : ℝ) * 14.4) * Real.pi
      (0.3 + 0.9 + Real.cos (Real.pi - angle) * 0.9, 0.8 + Real.sin angle * 0.5,
       (seededRandom ((i : ℝ) * 15.4) - 0.5) * 0.1)
    else
      let t : ℝ := seededRandom ((i : ℝ) * 16.4)
      (2.1 + (seededRandom ((i : ℝ) * 17.4) - 0.5) * 0.25, 0.8 - t * 2.3,
       (seededRandom ((i : ℝ) * 18.4) - 0.5) * 0.1)

/-- generateLinkedInPositions from ParticleScene.tsx (seeded). -/
noncomputable def generateLinkedInPositions (_mr : MathRand) : List ℝ :=
  fillBuf linkedInPoint PARTICLE_COUNT

/-- gitHubPoint is the body of the generateGitHubPositions loop. -/
noncomputable def gitHubPoint (i : ℕ) : ℝ × ℝ × ℝ :=
  let radius : ℝ := 3
  let sect : ℝ := seededRandom ((i : ℝ) * 1.5)
  if sect < 0.4 then
    let angle : ℝ := seededRandom ((i : ℝ) * 2.5) * Real.pi * 2
    let r : ℝ := radius + (seededRandom ((i : ℝ) * 3.5) - 0.5) * 0.2
    (Real.cos angle * r, Real.sin angle * r,
     (seededRandom ((i : ℝ) * 4.5) - 0.5) * 0.2)
  else if sect < 0.6 then
    let t : ℝ := seededRandom ((i : ℝ) * 5.5)
    let xy : ℝ × ℝ :=
      if seededRandom ((i : ℝ) * 6.5) < 0.5 then (-1.8 + t * 0.8, 2 + t * 1)
      else (-1 + t * 0.8, 3 - t * 1)
    (xy.1, xy.2, (seededRandom ((i : ℝ) * 7.5) - 0.5) * 0.15)
  else if sect < 0.8 then
    let t : ℝ := seededRandom ((i : ℝ) * 8.5)
    let xy : ℝ × ℝ :=
      if seededRandom ((i : ℝ) * 9.5) < 0.5 then (1 + t * 0.8, 2 + t * 1)
      else (1.8 - t * 0.8, 3 - t * 1)
    (xy.1, xy.2, (seededRandom ((i : ℝ) * 10.5) - 0.5) * 0.15)
  else
    let tentacle : ℤ := ⌊seededRandom ((i : ℝ) * 11.5) * 5⌋
    let t : ℝ := seededRandom ((i : ℝ) * 12.5)
    let baseAngle : ℝ := -Real.pi / 2 + ((tentacle : ℝ) - 2) * 0.4
    let wave : ℝ := Real.sin (t * Real.pi * 2) * 0.3
    (Real.cos baseAngle * (1.5 + t * 1.5) + wave, -1.5 - t * 1.5,
     (seededRandom ((i : ℝ) * 13.5) - 0.5) * 0.2)

/-- generateGitHubPositions from ParticleScene.tsx (seeded). -/
noncomputable def generateGitHubPositions (_mr : MathRand) : List ℝ :=
  fillBuf gitHubPoint PARTICLE_COUNT

/-- satellitePoint is the body of the generateSatellitePositions loop.  The
dish branch applies up to two sequential overwrites (rim, antenna feed),
mirrored here by nested lets. -/
noncomputable def satellitePoint (i : ℕ) : ℝ × ℝ × ℝ :=
  let scale : ℝ := 1.2
  let tiltX : ℝ := 0.4
  let tiltZ : ℝ := 0.3
  let sect : ℝ := seededRandom ((i : ℝ) * 1.8)
  let base : ℝ × ℝ × ℝ :=
    if sect < 0.25 then
      ((seededRandom ((i : ℝ) * 2.8) - 0.5) * 1.2,
       (seededRandom ((i : ℝ) * 3.8) - 0.5) * 1.8,
       (seededRandom ((i : ℝ) * 4.8) - 0.5) * 1.2)
    else if sect < 0.55 then
      (-0.6 - seededRandom ((i : ℝ) * 5.8) * 4,
       (seededRandom ((i : ℝ) * 6.8) - 0.5) * 0.12,
       (seededRandom ((i : ℝ) * 7.8) - 0.5) * 2.2)
    else if sect < 0.85 then
      (0.6 + seededRandom ((i : ℝ) * 8.8) * 4,
       (seededRandom ((i : ℝ) * 9.8) - 0.5) * 0.12,
       (seededRandom ((i : ℝ) * 10.8) - 0.5) * 2.2)
    else if sect < 0.92 then
      let angle : ℝ := seededRandom ((i : ℝ) * 11.8) * Real.pi * 2
      let r : ℝ := seededRandom ((i : ℝ) * 12.8) * 0.8
      let depth : ℝ := r * r * 0.4
      let p1 : ℝ × ℝ × ℝ := (Real.cos angle * r, 1.2 + depth, Real.sin angle * r)
      let p2 : ℝ × ℝ × ℝ :=
        if seededRandom ((i : ℝ) * 13.8) < 0.2 then
          let rimAngle : ℝ := seededRandom ((i : ℝ) * 14.8) * Real.pi * 2
          (Real.cos rimAngle * 0.8, 1.2 + 0.8 * 0.8 * 0.4, Real.sin rimAngle * 0.8)
        else p1
      let p3 : ℝ × ℝ × ℝ :=
        if seededRandom ((i : ℝ) * 15.8) < 0.15 then
          ((seededRandom ((i : ℝ) * 16.8) - 0.5) * 0.08,
           1.2 + seededRandom ((i : ℝ) * 17.8) * 0.6,
           (seededRandom ((i : ℝ) * 18.8) - 0.5) * 0.08)
        else p2
      p3
    else
      let panel : ℝ := if seededRandom ((i : ℝ) * 14.8) < 0.5 then -1 else 1
      let gridType : ℝ := seededRandom ((i : ℝ) * 15.8)
      if gridType < 0.5 then
        (panel * (0.6 + seededRandom ((i : ℝ) * 16.8) * 4), 0,
         ((⌊seededRandom ((i : ℝ) * 17.8) * 5⌋ : ℝ) / 5 - 0.4) * 2.2)
      else
        (panel * (0.6 + (⌊seededRandom ((i : ℝ) * 18.8) * 8⌋ : ℝ) / 8 * 4), 0,
         (seededRandom ((i : ℝ) * 19.8) - 0.5) * 2.2)
  let x : ℝ := base.1 + (seededRandom ((i : ℝ) * 20.8) - 0.5) * 0.04
  let y : ℝ := base.2.1 + (seededRandom ((i : ℝ) * 21.8) - 0.5) * 0.04
  let z : ℝ := base.2.2 + (seededRandom ((i : ℝ) * 22.8) - 0.5) * 0.04
  let y1 : ℝ := y * Real.cos tiltX - z * Real.sin tiltX
  let z1 : ℝ := y * Real.sin tiltX + z * Real.cos tiltX
  let x2 : ℝ := x * Real.cos tiltZ - y1 * Real.sin tiltZ
  let y2 : ℝ := x * Real.sin tiltZ + y1 * Real.cos tiltZ
  (x2 * scale, y2 * scale, z1 * scale)

/-- generateSatellitePositions from ParticleScene.tsx (seeded). -/
noncomputable def generateSatellitePositions (_mr : MathRand) : List ℝ :=
  fillBuf satellitePoint PARTICLE_COUNT

/-- particlesPerLogo from generateAllSocialLogos:
`Math.floor(PARTICLE_COUNT / 5)` = 3200. -/
def particlesPerLogo : ℕ := PARTICLE_COUNT / 5

/-- yOffsets from generateAllSocialLogos: vertical position of each logo block. -/
def yOffsets : List ℝ := [3.2, 1.6, 0, -1.6, -3.2]

/-- socialLogoBufs is the `generators` table of generateAllSocialLogos, with
each sub-generator already run. -/
noncomputable def socialLogoBufs (mr : MathRand) : List (List ℝ) :=
  [generateInstagramPositions mr, generateXPositions mr, generateYouTubePositions mr,
   generateLinkedInPositions mr, generateGitHubPositions mr]

/-- allSocialLogosPoint is the net per-particle effect of the two nested loops
of generateAllSocialLogos.  The source iterates `logoIdx` over 0..4 and writes
the block `[logoIdx*particlesPerLogo, endIdx)` where `endIdx` is
`(logoIdx+1)*particlesPerLogo` for the first four blocks and `PARTICLE_COUNT`
for the last; since `PARTICLE_COUNT = 5 * particlesPerLogo` the blocks
partition the index range and the block of particle `i` is
`i / particlesPerLogo`, with `srcIdx = i - logoIdx * particlesPerLogo`. -/
noncomputable def allSocialLogosPoint (mr : MathRand) (i : ℕ) : ℝ × ℝ × ℝ :=
  let scale : ℝ := 0.28
  let logoIdx : ℕ := i / particlesPerLogo
  let srcIdx : ℕ := i - logoIdx * particlesPerLogo
  let logoPositions : List ℝ := (socialLogoBufs mr).getD logoIdx []
  (logoPositions.getD (srcIdx * 3) 0 * scale,
   logoPositions.getD (srcIdx * 3 + 1) 0 * scale + yOffsets.getD logoIdx 0,
   logoPositions.getD (srcIdx * 3 + 2) 0 * scale)

/-- generateAllSocialLogos from ParticleScene.tsx (seeded). -/
noncomputable def generateAllSocialLogos (mr : MathRand) : List ℝ :=
  fillBuf (allSocialLogosPoint mr) PARTICLE_COUNT

/-- textPoint is the body of the particle-assignment loop of
generateTextPositions: cycle through the sampled pixel points modulo their
count (`points.length ? points[i % points.length] : {x:0,y:0}`) and add
true-random jitter. -/
noncomputable def textPoint (points : List (ℝ × ℝ)) (mr : MathRand) (i : ℕ) : ℝ × ℝ × ℝ :=
  let pick : ℝ × ℝ := if points.length ≠ 0 then points.getD (i % points.length) (0, 0) else (0, 0)
  (pick.1 + (mr i 0 - 0.5) * 0.2,
   pick.2 + (mr i 1 - 0.5) * 0.2,
   (mr i 2 - 0.5) * 0.3)

/-- generateTextPositions from ParticleScene.tsx.  The 2D canvas rasteriser is
environmental: `ctxAvailable` models `typeof document !== 'undefined'` and
`canvas.getContext('2d') !== null`, and `points` is the list of sampled
opaque-pixel coordinates (already centred and scaled by the sampling loop).
When rasterisation is unavailable the source returns
`new Float32Array(PARTICLE_COUNT * 3)`, i.e. a zero-filled buffer of full
length. -/
noncomputable def generateTextPositions (ctxAvailable : Bool) (points : List (ℝ × ℝ))
    (mr : MathRand) : List ℝ :=
  if ctxAvailable then fillBuf (textPoint points mr) PARTICLE_COUNT
  else zeroBuf PARTICLE_COUNT

set_option maxRecDepth 4000 in
/-- C1: every shape generator (mountains, sphere, the five experience shapes,
the five social-logo shapes, spaceship, satellite, the all-logos composite,
and text) returns a buffer of length exactly 3 × PARTICLE_COUNT in which, for
every particle, all three slots hold exactly the value computed by that
particle's branch — no slot is skipped or written out of bounds, whatever
branch each particle takes; in the real-number semantics of the embedding
every such value is a finite real (there is no NaN).  The headless text path
returns a zero-filled buffer, also of full length. -/
theorem C1_generator_buffers_wellformed (mr : MathRand) (points : List (ℝ × ℝ)) :
    fillsAllSlots (generateMountainPositions mr) mountainPoint ∧
    fillsAllSlots (generateSpherePositions mr) spherePoint ∧
    fillsAllSlots (generateHeaventreePositions mr) heaventreePoint ∧
    fillsAllSlots (generateOriginiumPositions mr) originiumPoint ∧
    fillsAllSlots (generateRhodesPositions mr) rhodesPoint ∧
    fillsAllSlots (generateTalosPositions mr) talosPoint ∧
    fillsAllSlots (generateEndfieldPositions mr) endfieldPoint ∧
    fillsAllSlots (generateSpaceshipPositions mr) (spaceshipPoint mr) ∧
    fillsAllSlots (generateInstagramPositions mr) instagramPoint ∧
    fillsAllSlots (generateXPositions mr) xLogoPoint ∧
    fillsAllSlots (generateYouTubePositions mr) youTubePoint ∧
    fillsAllSlots (generateLinkedInPositions mr) linkedInPoint ∧
    fillsAllSlots (generateGitHubPositions mr) gitHubPoint ∧
    fillsAllSlots (generateSatellitePositions mr) satellitePoint ∧
    fillsAllSlots (generateAllSocialLogos mr) (allSocialLogosPoint mr) ∧
    fillsAllSlots (generateTextPositions true points mr) (textPoint points mr) ∧
    (generateTextPositions false points mr).length = 3 * PARTICLE_COUNT :=
  ⟨fillBuf_fillsAllSlots _, fillBuf_fillsAllSlots _, fillBuf_fillsAllSlots _,
   fillBuf_fillsAllSlots _, fillBuf_fillsAllSlots _, fillBuf_fillsAllSlots _,
   fillBuf_fillsAllSlots _, fillBuf_fillsAllSlots _, fillBuf_fillsAllSlots _,
   fillBuf_fillsAllSlots _, fillBuf_fillsAllSlots _, fillBuf_fillsAllSlots _,
   fillBuf_fillsAllSlots _, fillBuf_fillsAllSlots _, fillBuf_fillsAllSlots _,
   by
     rw [show generateTextPositions true points mr
          = fillBuf (textPoint points mr) PARTICLE_COUNT from rfl]
     exact fillBuf_fillsAllSlots _,
   by
     rw [show generateTextPositions false points mr = zeroBuf PARTICLE_COUNT from rfl]
     simp [zeroBuf]⟩

set_option maxRecDepth 4000 in
/-- C2: every generator driven only by the seeded hash is deterministic.  In
the embedding each generator receives the ambient `Math.random` oracle; the
seeded generators never consult it, so their output is independent of the
ambient randomness and two calls (with arbitrarily different ambient draws)
produce identical buffers.  The spaceship and text generators, which do call
`Math.random`, are deliberately absent from this list. -/
theorem C2_seeded_generators_deterministic (r₁ r₂ : MathRand) :
    generateMountainPositions r₁ = generateMountainPositions r₂ ∧
    generateSpherePositions r₁ = generateSpherePositions r₂ ∧
    generateHeaventreePositions r₁ = generateHeaventreePositions r₂ ∧
    generateOriginiumPositions r₁ = generateOriginiumPositions r₂ ∧
    generateRhodesPositions r₁ = generateRhodesPositions r₂ ∧
    generateTalosPositions r₁ = generateTalosPositions r₂ ∧
    generateEndfieldPositions r₁ = generateEndfieldPositions r₂ ∧
    generateSatellitePositions r₁ = generateSatellitePositions r₂ ∧
    generateInstagramPositions r₁ = generateInstagramPositions r₂ ∧
    generateXPositions r₁ = generateXPositions r₂ ∧
    generateYouTubePositions r₁ = generateYouTubePositions r₂ ∧
    generateLinkedInPositions r₁ = generateLinkedInPositions r₂ ∧
    generateGitHubPositions r₁ = generateGitHubPositions r₂ ∧
    generateAllSocialLogos r₁ = generateAllSocialLogos r₂ :=
  ⟨rfl, rfl, rfl, rfl, rfl, rfl, rfl, rfl, rfl, rfl, rfl, rfl, rfl, rfl⟩

/-- easeStep models one frame of the easing loop in `animate`
(ParticleScene.tsx): every coordinate of CURRENT moves 2% of the way to the
corresponding TARGET coordinate,
`current[i] += (target[i] - current[i]) * 0.02`. -/
noncomputable def easeStep (cur tgt : List ℝ) : List ℝ :=
  List.zipWith (fun c t => c + (t - c) * 0.02) cur tgt

/-- sumSq is the squared Euclidean distance between two equally long buffers. -/
noncomputable def sumSq (a b : List ℝ) : ℝ :=
  (List.zipWith (fun x y => (x - y) ^ 2) a b).sum

/-- bufDist is the Euclidean distance between two equally long buffers. -/
noncomputable def bufDist (a b : List ℝ) : ℝ := Real.sqrt (sumSq a b)

theorem sumSq_nonneg (a : List ℝ) : ∀ b : List ℝ, 0 ≤ sumSq a b := by
  induction a with
  | nil => intro b; simp [sumSq]
  | cons c cs ih =>
      intro b
      cases b with
      | nil => simp [sumSq]
      | cons t ts =>
          have h1 := ih ts
          have h2 : (0 : ℝ) ≤ (c - t) ^ 2 := sq_nonneg _
          simp only [sumSq, List.zipWith_cons_cons, List.sum_cons] at h1 ⊢
          linarith

theorem sumSq_easeStep (cur : List ℝ) : ∀ tgt : List ℝ,
    sumSq (easeStep cur tgt) tgt = 0.9604 * sumSq cur tgt := by
  induction cur with
  | nil => intro tgt; cases tgt <;> simp [easeStep, sumSq]
  | cons c cs ih =>
      intro tgt
      cases tgt with
      | nil => simp [easeStep, sumSq]
      | cons t ts =>
          have h := ih ts
          simp only [easeStep, List.zipWith_cons_cons, sumSq, List.sum_cons] at h ⊢
          rw [h]
          ring

theorem sumSq_pos_of_ne (cur : List ℝ) : ∀ tgt : List ℝ,
    cur.length = tgt.length → cur ≠ tgt → 0 < sumSq cur tgt := by
  induction cur with
  | nil =>
      intro tgt hlen hne
      cases tgt with
      | nil => exact absurd rfl hne
      | cons t ts => simp at hlen
  | cons c cs ih =>
      intro tgt hlen hne
      cases tgt with
      | nil => simp at hlen
      | cons t ts =>
          by_cases hct : c = t
          · subst hct
            have hcs : cs ≠ ts := fun h => hne (by rw [h])
            have h := ih ts (by simpa using hlen) hcs
            simp only [sumSq, List.zipWith_cons_cons, List.sum_cons, sub_self]
            have h0 : ((0 : ℝ)) ^ 2 = 0 := by norm_num
            simp only [sumSq] at h
            linarith [h, h0.ge]
          · have h1 : 0 < (c - t) ^ 2 := pow_two_pos_of_ne_zero (sub_ne_zero.mpr hct)
            have h2 := sumSq_nonneg cs ts
            simp only [sumSq, List.zipWith_cons_cons, List.sum_cons]
            simp only [sumSq] at h2
            linarith

theorem easeStep_self (a : List ℝ) : easeStep a a = a := by
  induction a with
  | nil => rfl
  | cons c cs ih =>
      simp only [easeStep, List.zipWith_cons_cons]
      rw [show c + (c - c) * 0.02 = c by ring]
      exact congrArg (List.cons c) ih

theorem bufDist_easeStep (cur tgt : List ℝ) :
    bufDist (easeStep cur tgt) tgt = 0.98 * bufDist cur tgt := by
  unfold bufDist
  rw [sumSq_easeStep, show (0.9604 : ℝ) = 0.98 ^ 2 by norm_num,
      Real.sqrt_mul (by positivity), Real.sqrt_sq (by norm_num : (0 : ℝ) ≤ 0.98)]

/-- C3: the per-frame easing step `c += (t - c) * 0.02` is a contraction.
CURRENT = TARGET is a fixed point, and for CURRENT ≠ TARGET (of equal length,
the scene invariant) one step strictly decreases the Euclidean distance from
CURRENT to TARGET — indeed it scales it by the factor 0.98 < 1. -/
theorem C3_easing_step_contraction (cur tgt : List ℝ) (hlen : cur.length = tgt.length) :
    (cur = tgt → easeStep cur tgt = cur) ∧
    (cur ≠ tgt → bufDist (easeStep cur tgt) tgt < bufDist cur tgt) := by
  constructor
  · intro h
    subst h
    exact easeStep_self cur
  · intro hne
    have hS : 0 < sumSq cur tgt := sumSq_pos_of_ne cur tgt hlen hne
    have hd : 0 < bufDist cur tgt := Real.sqrt_pos.mpr hS
    rw [bufDist_easeStep]
    linarith

/-- Witness for C3 at the concrete one-coordinate buffers CURRENT = [1],
TARGET = [0]. -/
theorem C3_easing_step_contraction_witness :
    bufDist (easeStep [1] [0]) [0] < bufDist [1] [0] :=
  (C3_easing_step_contraction [1] [0] rfl).2
    (by intro h; injection h with h1 _; exact one_ne_zero h1)

/-- terrainBounds from the terrain branch of animate: half of the 50-unit
terrain depth. -/
def terrainBounds : ℝ := 25

/-- wrapZ models the wrap loop of the terrain branch of animate:
`while (newZ > terrainBounds) { newZ -= terrainBounds * 2 }`. -/
noncomputable def wrapZ (z : ℝ) : ℝ :=
  if h : z > terrainBounds then wrapZ (z - terrainBounds * 2) else z
termination_by (⌈(z - 25) / 50⌉).toNat
decreasing_by
  have hb : terrainBounds = (25 : ℝ) := rfl
  rw [hb] at h
  have h1 : (z - terrainBounds * 2 - 25) / 50 = (z - 25) / 50 - 1 := by
    rw [hb]; ring
  have h2 : ⌈(z - terrainBounds * 2 - 25) / 50⌉ = ⌈(z - 25) / 50⌉ - 1 := by
    rw [h1, Int.ceil_sub_one]
  have h3 : 0 < ⌈(z - 25) / 50⌉ :=
    Int.ceil_pos.mpr (div_pos (by linarith) (by norm_num))
  rw [h2]
  omega

theorem wrapZ_unfold (z : ℝ) :
    wrapZ z = if z > terrainBounds then wrapZ (z - terrainBounds * 2) else z := by
  rw [wrapZ]
  split <;> rfl

theorem wrapZ_measure_step (z : ℝ) (_h : z > terrainBounds) :
    ⌈(z - terrainBounds * 2 - 25) / 50⌉ = ⌈(z - 25) / 50⌉ - 1 := by
  have h1 : (z - terrainBounds * 2 - 25) / 50 = (z - 25) / 50 - 1 := by
    show (z - 25 * 2 - 25) / 50 = (z - 25) / 50 - 1
    ring
  rw [h1, Int.ceil_sub_one]

theorem wrapZ_measure_pos (z : ℝ) (h : z > terrainBounds) : 0 < ⌈(z - 25) / 50⌉ := by
  have hb : terrainBounds = (25 : ℝ) := rfl
  rw [hb] at h
  exact Int.ceil_pos.mpr (div_pos (by linarith) (by norm_num))

theorem wrapZ_le_aux (n : ℕ) : ∀ z : ℝ, (⌈(z - 25) / 50⌉).toNat ≤ n →
    wrapZ z ≤ terrainBounds := by
  induction n with
  | zero =>
      intro z hz
      rw [wrapZ_unfold]
      split
      · next h =>
          have := wrapZ_measure_pos z h
          omega
      · next h => linarith [not_lt.mp h]
  | succ m ih =>
      intro z hz
      rw [wrapZ_unfold]
      split
      · next h =>
          refine ih _ ?_
          have h2 := wrapZ_measure_step z h
          have h3 := wrapZ_measure_pos z h
          rw [h2]
          omega
      · next h => linarith [not_lt.mp h]

theorem wrapZ_le (z : ℝ) : wrapZ z ≤ terrainBounds :=
  wrapZ_le_aux (⌈(z - 25) / 50⌉).toNat z le_rfl

theorem wrapZ_gt_aux (n : ℕ) : ∀ z : ℝ, (⌈(z - 25) / 50⌉).toNat ≤ n →
    -terrainBounds < z → -terrainBounds < wrapZ z := by
  induction n with
  | zero =>
      intro z hz hlow
      rw [wrapZ_unfold]
      split
      · next h =>
          have := wrapZ_measure_pos z h
          omega
      · next h => exact hlow
  | succ m ih =>
      intro z hz hlow
      rw [wrapZ_unfold]
      split
      · next h =>
          refine ih _ ?_ ?_
          · have h2 := wrapZ_measure_step z h
            have h3 := wrapZ_measure_pos z h
            rw [h2]
            omega
          · have hb : terrainBounds = (25 : ℝ) := rfl
            rw [hb] at h ⊢
            linarith
      · next h => exact hlow

theorem wrapZ_gt (z : ℝ) (hlow : -terrainBounds < z) : -terrainBounds < wrapZ z :=
  wrapZ_gt_aux (⌈(z - 25) / 50⌉).toNat z le_rfl hlow

theorem wrapZ_sub_aux (n : ℕ) : ∀ z : ℝ, (⌈(z - 25) / 50⌉).toNat ≤ n →
    ∃ k : ℤ, wrapZ z = z - 50 * k := by
  induction n with
  | zero =>
      intro z hz
      rw [wrapZ_unfold]
      split
      · next h =>
          have := wrapZ_measure_pos z h
          omega
      · next h => exact ⟨0, by simp⟩
  | succ m ih =>
      intro z hz
      rw [wrapZ_unfold]
      split
      · next h =>
          obtain ⟨k, hk⟩ := ih (z - terrainBounds * 2) (by
            have h2 := wrapZ_measure_step z h
            have h3 := wrapZ_measure_pos z h
            rw [h2]
            omega)
          refine ⟨k + 1, ?_⟩
          have hb : terrainBounds = (25 : ℝ) := rfl
          rw [hk, hb]
          push_cast
          ring
      · next h => exact ⟨0, by simp⟩

theorem wrapZ_sub (z : ℝ) : ∃ k : ℤ, wrapZ z = z - 50 * k :=
  wrapZ_sub_aux (⌈(z - 25) / 50⌉).toNat z le_rfl

/-- mountainsBuf is the memoised `shapePositions.mountains` buffer: one fixed
call of the seeded mountain generator (by determinism the oracle argument is
irrelevant). -/
noncomputable def mountainsBuf : List ℝ := generateMountainPositions (fun _ _ => 0)

theorem mountainsBuf_eq : mountainsBuf = fillBuf mountainPoint PARTICLE_COUNT := rfl

/-- terrainFrameZ is the z coordinate written for particle `i` by the terrain
branch of animate after the scroll offset has accumulated to `offset`:
`newZ = shapePositions.mountains[i*3+2] + terrainOffset` followed by the wrap
loop. -/
noncomputable def terrainFrameZ (offset : ℝ) (i : ℕ) : ℝ :=
  wrapZ (mountainsBuf.getD (3 * i + 2) 0 + offset)

theorem getD_fillBuf_z (f : ℕ → ℝ × ℝ × ℝ) (n i : ℕ) (hi : i < n) :
    (fillBuf f n).getD (3 * i + 2) 0 = (f i).2.2 := by
  have h := (getElem?_fillBuf f n i hi).2.2
  rw [List.getD_eq_getElem?_getD, h]
  rfl

theorem mountainPoint_z_lower (i : ℕ) : -25 ≤ (mountainPoint i).2.2 := by
  unfold mountainPoint
  have hq : (0 : ℝ) ≤ (i / gridSizeX : ℕ) / (gridSizeZ : ℝ) :=
    div_nonneg (Nat.cast_nonneg _) (Nat.cast_nonneg _)
  simp only [terrainDepth]
  nlinarith [hq]

theorem mountainPoint_zero_z : (mountainPoint 0).2.2 = -25 := by
  unfold mountainPoint
  simp only [terrainDepth, Nat.zero_div, Nat.zero_mod, Nat.cast_zero]
  norm_num

/-- Counterexample to C4 as stated: at scroll offset 0 (which is a
non-negative offset) the first grid row sits at base z exactly −25, and the
rendered z is −25, which is NOT in the open-closed interval (−25, 25]. -/
theorem C4_terrain_wrap_counterexample :
    terrainFrameZ 0 0 = -25 ∧ ¬(-25 < terrainFrameZ 0 0 ∧ terrainFrameZ 0 0 ≤ 25) := by
  have hslot : mountainsBuf.getD (3 * 0 + 2) 0 = (mountainPoint 0).2.2 := by
    rw [mountainsBuf_eq]
    exact getD_fillBuf_z mountainPoint PARTICLE_COUNT 0 (by norm_num [PARTICLE_COUNT])
  have hv : terrainFrameZ 0 0 = wrapZ (-25) := by
    unfold terrainFrameZ
    rw [hslot, mountainPoint_zero_z]
    norm_num
  have hw : wrapZ (-25 : ℝ) = -25 := by
    rw [wrapZ_unfold]
    have : ¬((-25 : ℝ) > terrainBounds) := by norm_num [terrainBounds]
    simp [this]
  have ht : terrainFrameZ 0 0 = -25 := hv.trans hw
  exact ⟨ht, by rw [ht]; intro hc; linarith [hc.1]⟩

/-- C4 amended: the per-frame terrain z is the particle's base shape z plus
the accumulated scroll offset, reduced by exactly 50 (twice the bound) as
many times as needed; for every particle and every POSITIVE offset the
rendered z lies in (−25, 25] (at offset exactly 0 the boundary row sits at
z = −25, see the counterexample), and the spacing between any two particles
equals the spacing of their base z values modulo the 50-unit tile depth. -/
theorem C4_terrain_wrap_amended (offset : ℝ) (hoff : 0 < offset) (i : ℕ)
    (hi : i < PARTICLE_COUNT) :
    (-25 < terrainFrameZ offset i ∧ terrainFrameZ offset i ≤ 25) ∧
    (∃ k : ℤ, terrainFrameZ offset i = mountainsBuf.getD (3 * i + 2) 0 + offset - 50 * k) ∧
    (∀ j, j < PARTICLE_COUNT → ∃ k : ℤ,
      terrainFrameZ offset i - terrainFrameZ offset j =
        (mountainsBuf.getD (3 * i + 2) 0 - mountainsBuf.getD (3 * j + 2) 0) - 50 * k) := by
  have hbase : ∀ m : ℕ, m < PARTICLE_COUNT → -25 ≤ mountainsBuf.getD (3 * m + 2) 0 := by
    intro m hm
    rw [mountainsBuf_eq, getD_fillBuf_z mountainPoint PARTICLE_COUNT m hm]
    exact mountainPoint_z_lower m
  refine ⟨⟨?_, ?_⟩, ?_, ?_⟩
  · have h1 : -terrainBounds < mountainsBuf.getD (3 * i + 2) 0 + offset := by
      have := hbase i hi
      show (-(25 : ℝ)) < _
      linarith
    have := wrapZ_gt _ h1
    unfold terrainFrameZ
    simpa [terrainBounds] using this
  · have := wrapZ_le (mountainsBuf.getD (3 * i + 2) 0 + offset)
    unfold terrainFrameZ
    simpa [terrainBounds] using this
  · exact wrapZ_sub _
  · intro j hj
    obtain ⟨ki, hki⟩ := wrapZ_sub (mountainsBuf.getD (3 * i + 2) 0 + offset)
    obtain ⟨kj, hkj⟩ := wrapZ_sub (mountainsBuf.getD (3 * j + 2) 0 + offset)
    refine ⟨ki - kj, ?_⟩
    unfold terrainFrameZ
    rw [hki, hkj]
    push_cast
    ring

/-- Witness for the amended C4 at offset 1 and particle 0. -/
theorem C4_terrain_wrap_amended_witness :
    (-25 < terrainFrameZ 1 0 ∧ terrainFrameZ 1 0 ≤ 25) ∧
    (∃ k : ℤ, terrainFrameZ 1 0 = mountainsBuf.getD (3 * 0 + 2) 0 + 1 - 50 * k) ∧
    (∀ j, j < PARTICLE_COUNT → ∃ k : ℤ,
      terrainFrameZ 1 0 - terrainFrameZ 1 j =
        (mountainsBuf.getD (3 * 0 + 2) 0 - mountainsBuf.getD (3 * j + 2) 0) - 50 * k) :=
  C4_terrain_wrap_amended 1 (by norm_num) 0 (by norm_num [PARTICLE_COUNT])

/-- ANIM_DURATION from BulletTimeScene.tsx (seconds of the shoot-in phase). -/
def ANIM_DURATION : ℝ := 1.5

/-- SPIN_SPEED from BulletTimeScene.tsx (radians per second of self-spin). -/
def SPIN_SPEED : ℝ := 1.5

/-- FLY_OUT_DURATION from BulletTimeScene.tsx (seconds of the fly-out phase). -/
def FLY_OUT_DURATION : ℝ := 0.6

/-- bulletEase from BulletTimeScene.tsx: `1 - Math.pow(1 - t, 12)`. -/
def bulletEase (t : ℝ) : ℝ := 1 - (1 - t) ^ 12

/-- Vec3 models a three.js `Vector3`. -/
structure Vec3 where
  x : ℝ
  y : ℝ
  z : ℝ

/-- lerpVec models `new THREE.Vector3().lerpVectors(a, b, t)`:
componentwise `a + (b - a) * t`. -/
def lerpVec (a b : Vec3) (t : ℝ) : Vec3 :=
  ⟨a.x + (b.x - a.x) * t, a.y + (b.y - a.y) * t, a.z + (b.z - a.z) * t⟩

/-- BulletData models the per-bullet record of BulletTimeScene.tsx.  The
source field `end` is named `destination` (`end` is a Lean keyword);
`pos` is the mesh position, `rotZ` the mesh rotation.z accumulated by the
spin, and `trailsVisible` the shared visibility of the ghost trail (the
ghosts' positions are `pos - dir * (t+1) * TRAIL_SPACING`, derived data). -/
structure BulletData where
  start : Vec3
  destination : Vec3
  dir : Vec3
  delay : ℝ
  started : Bool
  trailsVisible : Bool
  pos : Vec3
  rotZ : ℝ

/-- BtState models the mutable controller record `sceneRef.current` of
BulletTimeScene.tsx (the fields the animation loop reads and writes). -/
structure BtState where
  frozen : Bool
  flyingOut : Bool
  disposed : Bool
  startTime : ℝ
  flyOutStart : ℝ
  lastTimestamp : ℝ
  bullets : List BulletData

/-- shootInBulletStep is the per-bullet body of the shoot-in loop in
`animate`: skip bullets before their launch delay; otherwise mark started,
place the mesh at the eased interpolation, accrue spin, update trails. -/
noncomputable def shootInBulletStep (elapsed dt : ℝ) (b : BulletData) : BulletData :=
  let bulletElapsed : ℝ := elapsed - b.delay * ANIM_DURATION
  if bulletElapsed < 0 then b
  else
    let effectiveDur : ℝ := ANIM_DURATION * (1 - b.delay)
    let bp : ℝ := min (bulletElapsed / effectiveDur) 1
    { b with
      started := true,
      trailsVisible := true,
      pos := lerpVec b.start b.destination (bulletEase bp),
      rotZ := b.rotZ + SPIN_SPEED * dt }

/-- flyOutBulletStep is the per-bullet body of the fly-out loop in `animate`:
move along `dir` with the current speed, spin at triple rate, update trails. -/
noncomputable def flyOutBulletStep (dt speed : ℝ) (b : BulletData) : BulletData :=
  { b with
    pos := ⟨b.pos.x + b.dir.x * (speed * dt), b.pos.y + b.dir.y * (speed * dt),
            b.pos.z + b.dir.z * (speed * dt)⟩,
    rotZ := b.rotZ + SPIN_SPEED * 3 * dt,
    trailsVisible := b.started }

/-- frozenBulletStep is the per-bullet body of the frozen-spin loop in
`animate`: only the spin accrues. -/
noncomputable def frozenBulletStep (dt : ℝ) (b : BulletData) : BulletData :=
  { b with rotZ := b.rotZ + SPIN_SPEED * dt }

/-- btFrame is one invocation of `animate` in BulletTimeScene.tsx at wall
time `now` (milliseconds): compute `dt`, then dispatch on the phase flags
exactly as the source does.  The fly-out completion branch calls `cleanup()`,
modelled by setting `disposed`. -/
noncomputable def btFrame (s : BtState) (now : ℝ) : BtState :=
  let dt : ℝ := (now - s.lastTimestamp) / 1000
  let s0 : BtState := { s with lastTimestamp := now }
  if s.flyingOut then
    let flyElapsed : ℝ := (now - s.flyOutStart) / 1000
    if flyElapsed ≥ FLY_OUT_DURATION then { s0 with disposed := true }
    else
      let t : ℝ := flyElapsed / FLY_OUT_DURATION
      let speed : ℝ := 40 * t * t
      { s0 with bullets := s0.bullets.map (flyOutBulletStep dt speed) }
  else if s.frozen then
    { s0 with bullets := s0.bullets.map (frozenBulletStep dt) }
  else
    let elapsed : ℝ := (now - s.startTime) / 1000
    let globalProgress : ℝ := min (elapsed / ANIM_DURATION) 1
    if globalProgress ≥ 1 then
      { s0 with frozen := true,
                bullets := s0.bullets.map (fun b => { b with trailsVisible := b.started }) }
    else
      { s0 with bullets := s0.bullets.map (shootInBulletStep elapsed dt) }

/-- C5: during the shoot-in phase, a bullet whose delay has not elapsed
(`elapsed < delay * ANIM_DURATION`) is left entirely alone — it stays at its
start position, `started` stays false and the trails stay hidden; a bullet
past its delay is placed at the linear interpolation from start to end
evaluated at the eased local progress
`bulletEase (min ((elapsed - delay*D) / (D*(1-delay))) 1)` and is marked
started; and once global progress reaches 1 (`elapsed ≥ ANIM_DURATION`) the
frame controller transitions to the frozen-spin phase. -/
theorem C5_shoot_in_phase :
    (∀ (elapsed dt : ℝ) (b : BulletData),
      elapsed - b.delay * ANIM_DURATION < 0 → b.pos = b.start → b.started = false →
      b.trailsVisible = false →
      (shootInBulletStep elapsed dt b).pos = b.start ∧
      (shootInBulletStep elapsed dt b).started = false ∧
      (shootInBulletStep elapsed dt b).trailsVisible = false) ∧
    (∀ (elapsed dt : ℝ) (b : BulletData),
      0 ≤ elapsed - b.delay * ANIM_DURATION →
      (shootInBulletStep elapsed dt b).pos =
        lerpVec b.start b.destination
          (bulletEase (min ((elapsed - b.delay * ANIM_DURATION) /
            (ANIM_DURATION * (1 - b.delay))) 1)) ∧
      (shootInBulletStep elapsed dt b).started = true) ∧
    (∀ (s : BtState) (now : ℝ),
      s.flyingOut = false → s.frozen = false →
      ANIM_DURATION ≤ (now - s.startTime) / 1000 →
      (btFrame s now).frozen = true) := by
  refine ⟨?_, ?_, ?_⟩
  · intro elapsed dt b hneg hpos hst htr
    rw [shootInBulletStep]
    simp only [if_pos hneg]
    exact ⟨hpos, hst, htr⟩
  · intro elapsed dt b hnn
    rw [shootInBulletStep]
    have hcond : ¬(elapsed - b.delay * ANIM_DURATION < 0) := not_lt.mpr hnn
    have hcond2 : ¬(elapsed < b.delay * ANIM_DURATION) := fun hc => hcond (by linarith)
    simp [hcond, hcond2]
  · intro s now hfly hfroz helap
    rw [btFrame]
    simp only [hfly, hfroz, Bool.false_eq_true, if_false]
    have hD : (0 : ℝ) < ANIM_DURATION := by norm_num [ANIM_DURATION]
    have h1 : (1 : ℝ) ≤ (now - s.startTime) / 1000 / ANIM_DURATION :=
      (one_le_div hD).mpr helap
    have h2 : min ((now - s.startTime) / 1000 / ANIM_DURATION) 1 ≥ 1 :=
      le_min h1 le_rfl
    simp only [ge_iff_le, h2, if_true]

/-- Witness for C5: a concrete bullet with delay fraction 0.1.  At elapsed
time 0.05 s it is before its delay and untouched; at elapsed 0.5 s it sits at
the eased interpolation and is started; and a frame at 2000 ms freezes the
controller. -/
theorem C5_shoot_in_phase_witness :
    ((shootInBulletStep 0.05 0.016
        ⟨⟨0, 0, -60⟩, ⟨1, 1, 7⟩, ⟨0, 0, 1⟩, 0.1, false, false, ⟨0, 0, -60⟩, 0⟩).pos
      = ⟨0, 0, -60⟩) ∧
    ((shootInBulletStep 0.5 0.016
        ⟨⟨0, 0, -60⟩, ⟨1, 1, 7⟩, ⟨0, 0, 1⟩, 0.1, false, false, ⟨0, 0, -60⟩, 0⟩).started
      = true) ∧
    (btFrame ⟨false, false, false, 0, 0, 1984, []⟩ 2000).frozen = true := by
  refine ⟨?_, ?_, ?_⟩
  · exact (C5_shoot_in_phase.1 0.05 0.016 _ (by norm_num [ANIM_DURATION]) rfl rfl rfl).1
  · exact (C5_shoot_in_phase.2.1 0.5 0.016 _ (by norm_num [ANIM_DURATION])).2
  · exact C5_shoot_in_phase.2.2 ⟨false, false, false, 0, 0, 1984, []⟩ 2000 rfl rfl
      (by norm_num [ANIM_DURATION])

/-- c6Bullet is a concrete bullet with launch delay fraction 0.1 (like the
fifth trajectory of the source), not yet started, with zero accumulated spin. -/
noncomputable def c6Bullet : BulletData :=
  ⟨⟨0, 0, -60⟩, ⟨1, 1, 7⟩, ⟨0, 0, 1⟩, 0.1, false, false, ⟨0, 0, -60⟩, 0⟩

/-- c6State is a concrete controller state in the shoot-in phase, 34 ms after
the start, holding only `c6Bullet`. -/
noncomputable def c6State : BtState := ⟨false, false, false, 0, 0, 34, [c6Bullet]⟩

/-- Counterexample to C6 as stated: the frame at 50 ms is a genuine animation
frame (positive dt) of the shoot-in phase, yet the bullet — still before its
launch delay of 0.1 × 1.5 s — is returned entirely unchanged, so its
self-rotation angle does NOT increase on this frame. -/
theorem C6_spin_counterexample :
    c6State.lastTimestamp < 50 ∧ c6State.flyingOut = false ∧ c6State.frozen = false ∧
    (btFrame c6State 50).bullets[0]? = some c6Bullet ∧
    ¬∃ b', (btFrame c6State 50).bullets[0]? = some b' ∧ c6Bullet.rotZ < b'.rotZ := by
  have hb : (btFrame c6State 50).bullets[0]? = some c6Bullet := by
    rw [btFrame]
    have h1 : c6State.flyingOut = false := rfl
    have h2 : c6State.frozen = false := rfl
    have h3 : ¬(min ((50 - c6State.startTime) / 1000 / ANIM_DURATION) 1 ≥ 1) := by
      show ¬(min ((50 - (0 : ℝ)) / 1000 / ANIM_DURATION) 1 ≥ 1)
      have : ((50 : ℝ) - 0) / 1000 / ANIM_DURATION < 1 := by norm_num [ANIM_DURATION]
      intro hc
      exact absurd (le_trans hc (min_le_left _ _)) (not_le.mpr this)
    simp only [h1, h2, Bool.false_eq_true, if_false, h3]
    have h4 : (shootInBulletStep ((50 - c6State.startTime) / 1000)
        ((50 - c6State.lastTimestamp) / 1000) c6Bullet) = c6Bullet := by
      rw [shootInBulletStep]
      have : (50 - c6State.startTime) / 1000 - c6Bullet.delay * ANIM_DURATION < 0 := by
        show (50 - (0 : ℝ)) / 1000 - 0.1 * ANIM_DURATION < 0
        norm_num [ANIM_DURATION]
      simp only [if_pos this]
    show ((c6State.bullets.map _))[0]? = some c6Bullet
    rw [List.getElem?_map]
    show (([c6Bullet] : List BulletData)[0]?).map _ = some c6Bullet
    rw [show (([c6Bullet] : List BulletData)[0]?) = some c6Bullet from rfl]
    simp only [Option.map_some']
    rw [h4]
  refine ⟨by norm_num [c6State], rfl, rfl, hb, ?_⟩
  rintro ⟨b', hb', hlt⟩
  rw [hb] at hb'
  injection hb' with hb2
  rw [← hb2] at hlt
  exact lt_irrefl _ hlt

/-- C6 amended: the self-rotation angle increases on every frame with
positive dt during the frozen-spin phase and during the fly-out phase, and
during shoot-in frames (global progress below 1) it increases exactly for the
bullets that are past their individual launch delay; a bullet still before
its delay is returned unchanged, with no rotation accrued. -/
theorem C6_spin_amended (s : BtState) (now : ℝ) (hdt : s.lastTimestamp < now) :
    (s.flyingOut = true → (now - s.flyOutStart) / 1000 < FLY_OUT_DURATION →
      ∀ (k : ℕ) (b : BulletData), s.bullets[k]? = some b →
        ∃ b', (btFrame s now).bullets[k]? = some b' ∧ b.rotZ < b'.rotZ) ∧
    (s.flyingOut = false → s.frozen = true →
      ∀ (k : ℕ) (b : BulletData), s.bullets[k]? = some b →
        ∃ b', (btFrame s now).bullets[k]? = some b' ∧ b.rotZ < b'.rotZ) ∧
    (s.flyingOut = false → s.frozen = false →
      (now - s.startTime) / 1000 < ANIM_DURATION →
      ∀ (k : ℕ) (b : BulletData), s.bullets[k]? = some b →
        (0 ≤ (now - s.startTime) / 1000 - b.delay * ANIM_DURATION →
          ∃ b', (btFrame s now).bullets[k]? = some b' ∧ b.rotZ < b'.rotZ) ∧
        ((now - s.startTime) / 1000 - b.delay * ANIM_DURATION < 0 →
          (btFrame s now).bullets[k]? = some b)) := by
  have hdtpos : 0 < (now - s.lastTimestamp) / 1000 := by
    apply div_pos (by linarith) (by norm_num)
  refine ⟨?_, ?_, ?_⟩
  · intro hfly hfe k b hk
    rw [btFrame]
    simp only [hfly, if_true, if_neg (not_le.mpr hfe)]
    refine ⟨flyOutBulletStep ((now - s.lastTimestamp) / 1000)
      (40 * ((now - s.flyOutStart) / 1000 / FLY_OUT_DURATION) *
        ((now - s.flyOutStart) / 1000 / FLY_OUT_DURATION)) b, ?_, ?_⟩
    · rw [List.getElem?_map, hk, Option.map_some']
    · show b.rotZ < b.rotZ + SPIN_SPEED * 3 * ((now - s.lastTimestamp) / 1000)
      have hs : (0 : ℝ) < SPIN_SPEED := by norm_num [SPIN_SPEED]
      nlinarith
  · intro hfly hfroz k b hk
    rw [btFrame]
    simp only [hfly, hfroz, Bool.false_eq_true, if_false, if_true]
    refine ⟨frozenBulletStep ((now - s.lastTimestamp) / 1000) b, ?_, ?_⟩
    · rw [List.getElem?_map, hk, Option.map_some']
    · show b.rotZ < b.rotZ + SPIN_SPEED * ((now - s.lastTimestamp) / 1000)
      have hs : (0 : ℝ) < SPIN_SPEED := by norm_num [SPIN_SPEED]
      nlinarith
  · intro hfly hfroz hglob k b hk
    have hD : (0 : ℝ) < ANIM_DURATION := by norm_num [ANIM_DURATION]
    have hlt1 : (now - s.startTime) / 1000 / ANIM_DURATION < 1 :=
      (div_lt_one hD).mpr hglob
    have hmin : ¬(min ((now - s.startTime) / 1000 / ANIM_DURATION) 1 ≥ 1) := by
      intro hc
      exact absurd (le_trans hc (min_le_left _ _)) (not_le.mpr hlt1)
    constructor
    · intro hnn
      rw [btFrame]
      simp only [hfly, hfroz, Bool.false_eq_true, if_false, hmin]
      refine ⟨shootInBulletStep ((now - s.startTime) / 1000)
          ((now - s.lastTimestamp) / 1000) b, ?_, ?_⟩
      · rw [List.getElem?_map, hk, Option.map_some']
      · rw [shootInBulletStep]
        have hcond : ¬((now - s.startTime) / 1000 - b.delay * ANIM_DURATION < 0) :=
          not_lt.mpr hnn
        simp only [if_neg hcond]
        show b.rotZ < b.rotZ + SPIN_SPEED * ((now - s.lastTimestamp) / 1000)
        have hs : (0 : ℝ) < SPIN_SPEED := by norm_num [SPIN_SPEED]
        nlinarith
    · intro hneg
      rw [btFrame]
      simp only [hfly, hfroz, Bool.false_eq_true, if_false, hmin]
      rw [List.getElem?_map, hk, Option.map_some']
      rw [shootInBulletStep]
      simp only [if_pos hneg]

/-- Witness for the amended C6: a frozen-spin frame at 16 ms with positive dt
strictly increases the spin of the single bullet. -/
theorem C6_spin_amended_witness :
    ∃ b', (btFrame ⟨true, false, false, 0, 0, 0, [c6Bullet]⟩ 16).bullets[0]? = some b' ∧
      c6Bullet.rotZ < b'.rotZ :=
  (C6_spin_amended ⟨true, false, false, 0, 0, 0, [c6Bullet]⟩ 16
      (by norm_num)).2.1 rfl rfl 0 c6Bullet rfl

/-- sphereBuf, satelliteBuf, heaventreeBuf, originiumBuf, rhodesBuf, talosBuf
and endfieldBuf are the memoised `shapePositions` buffers (one fixed call per
mount; the seeded generators ignore the oracle). -/
noncomputable def sphereBuf : List ℝ := generateSpherePositions (fun _ _ => 0)

/-- satelliteBuf is the memoised satellite shape. -/
noncomputable def satelliteBuf : List ℝ := generateSatellitePositions (fun _ _ => 0)

/-- heaventreeBuf is the memoised experience shape 0. -/
noncomputable def heaventreeBuf : List ℝ := generateHeaventreePositions (fun _ _ => 0)

/-- originiumBuf is the memoised experience shape 1. -/
noncomputable def originiumBuf : List ℝ := generateOriginiumPositions (fun _ _ => 0)

/-- rhodesBuf is the memoised experience shape 2. -/
noncomputable def rhodesBuf : List ℝ := generateRhodesPositions (fun _ _ => 0)

/-- talosBuf is the memoised experience shape 3. -/
noncomputable def talosBuf : List ℝ := generateTalosPositions (fun _ _ => 0)

/-- endfieldBuf is the memoised experience shape 4. -/
noncomputable def endfieldBuf : List ℝ := generateEndfieldPositions (fun _ _ => 0)

theorem heaventreeBuf_eq : heaventreeBuf = fillBuf heaventreePoint PARTICLE_COUNT := rfl

/-- expShapesBufs is the memoised `shapePositions.expShapes` array. -/
noncomputable def expShapesBufs : List (List ℝ) :=
  [heaventreeBuf, originiumBuf, rhodesBuf, talosBuf, endfieldBuf]

/-- expPositions is the per-entity camera pose table of the section-5 branch. -/
def expPositions : List (ℝ × ℝ × ℝ) :=
  [(3.5, 0.3, 8), (3.5, 0, 8), (3.7, 0, 9), (3.0, 0, 8), (3.5, 0, 8)]

/-- jsIndexOr models `arr[i] || fallback` on a JS array whose elements are all
truthy: an in-range integer index yields the element, any other index yields
`undefined`, which is falsy, hence the fallback. -/
def jsIndexOr {α : Type} (l : List α) (i : ℤ) (fb : α) : α :=
  if h : 0 ≤ i ∧ i.toNat < l.length then l.get ⟨i.toNat, h.2⟩ else fb

/-- bufSet models `dst.set(src)` on Float32Arrays of equal length: the
contents of `dst` are replaced wholesale by `src`.  (Every call in this code
base passes a source of exactly the destination's length.) -/
def bufSet (dst src : List ℝ) : List ℝ := if src.length = dst.length then src else dst

theorem bufSet_eq_of_length (dst src : List ℝ) (h : src.length = dst.length) :
    bufSet dst src = src := by
  unfold bufSet
  rw [if_pos h]

attribute [irreducible] bufSet

/-- fallPoint is the body of the fall-position loop in the section-change
effect (prev section 1 → section 0): keep the particle's CURRENT x and z,
drop y to a staggered depth derived from its random group (10 groups). -/
noncomputable def fallPoint (cur : List ℝ) (i : ℕ) : ℝ × ℝ × ℝ :=
  let group : ℤ := ⌊seededRandom ((i : ℝ) * 99.7) * 10⌋
  let groupDelay : ℝ := (group : ℝ) * 4
  (cur.getD (3 * i) 0, -12 - groupDelay, cur.getD (3 * i + 2) 0)

/-- risePoint is the body of the rise-position loop in the section-change
effect (prev section 0 → section 1): CURRENT is pre-seeded from the mountain
shape's x and z with the same staggered group depths. -/
noncomputable def risePoint (i : ℕ) : ℝ × ℝ × ℝ :=
  let group : ℤ := ⌊seededRandom ((i : ℝ) * 99.7) * 10⌋
  let groupDelay : ℝ := (group : ℝ) * 4
  (mountainsBuf.getD (3 * i) 0, -12 - groupDelay, mountainsBuf.getD (3 * i + 2) 0)

/-- SectionResult is the net effect of one run of the section-change effect:
the new TARGET and CURRENT buffers, the camera pose, whether the delayed
fall-to-text timeout was scheduled, whether the camera is set instantly
(section 5) instead of eased, and the particle size. -/
structure SectionResult where
  tgt : List ℝ
  cur : List ℝ
  camX : ℝ
  camY : ℝ
  camZ : ℝ
  pendingFallText : Bool
  instantCamera : Bool
  particleSize : ℝ

/-- sectionChange models the section-change effect of ParticleScene.tsx (the
`switch (currentSection)` together with the trailing target/size/camera
updates).  `prev` is the previous section, `sec` the new one, `selExp` the
selected experience, `cur`/`tgt` the live buffers, `text` the (possibly still
null) text shape.  The spaceship shape is memoised from the ambient oracle
`mr`. -/
noncomputable def sectionChange (mr : MathRand) (prev sec selExp : ℤ)
    (cur tgt : List ℝ) (text : Option (List ℝ)) : SectionResult :=
  if sec = 0 then
    let newPositions : List ℝ := text.getD mountainsBuf
    if prev = 1 then
      let fallPositions : List ℝ := fillBuf (fallPoint cur) PARTICLE_COUNT
      { tgt := bufSet tgt fallPositions, cur := cur, camX := 0, camY := 0, camZ := 20,
        pendingFallText := true, instantCamera := false, particleSize := 0.12 }
    else
      { tgt := bufSet tgt newPositions, cur := cur, camX := 0, camY := 0, camZ := 20,
        pendingFallText := false, instantCamera := false, particleSize := 0.12 }
  else if sec = 1 then
    let cur2 : List ℝ := if prev = 0 then fillFrom cur risePoint PARTICLE_COUNT else cur
    { tgt := bufSet tgt mountainsBuf, cur := cur2, camX := 0, camY := 5, camZ := 18,
      pendingFallText := false, instantCamera := false, particleSize := 0.08 }
  else if sec = 2 then
    { tgt := bufSet tgt sphereBuf, cur := cur, camX := 0, camY := 0, camZ := 10,
      pendingFallText := false, instantCamera := false, particleSize := 0.05 }
  else if sec = 3 then
    { tgt := bufSet tgt (generateSpaceshipPositions mr), cur := cur,
      camX := -8, camY := 1, camZ := 18,
      pendingFallText := false, instantCamera := false, particleSize := 0.08 }
  else if sec = 4 then
    { tgt := bufSet tgt satelliteBuf, cur := cur, camX := 0, camY := 0, camZ := 12,
      pendingFallText := false, instantCamera := false, particleSize := 0.045 }
  else if sec = 5 then
    let newPositions : List ℝ := jsIndexOr expShapesBufs selExp heaventreeBuf
    let pos : ℝ × ℝ × ℝ := jsIndexOr expPositions selExp (3.5, 0.3, 8)
    { tgt := bufSet tgt newPositions, cur := cur,
      camX := pos.1, camY := pos.2.1, camZ := pos.2.2,
      pendingFallText := false, instantCamera := true, particleSize := 0.04 }
  else
    { tgt := bufSet tgt mountainsBuf, cur := cur, camX := 0, camY := 0, camZ := 12,
      pendingFallText := false, instantCamera := false, particleSize := 0.08 }

/-- FALL_TEXT_DELAY_MS is the fixed delay (ms) of the scheduled text install. -/
def FALL_TEXT_DELAY_MS : ℕ := 1200

/-- delayedTextInstall models the body of the `setTimeout` scheduled by the
1 → 0 transition: when it fires, the text shape is written into TARGET only
if the current section is still 0 (`currentSectionRef.current === 0`);
otherwise TARGET is left untouched. -/
noncomputable def delayedTextInstall (sectionAtFire : ℤ) (tgtAtFire : List ℝ)
    (textAtFire : Option (List ℝ)) : List ℝ :=
  if sectionAtFire = 0 then bufSet tgtAtFire (textAtFire.getD mountainsBuf) else tgtAtFire

theorem sectionChange_one_zero (mr : MathRand) (selExp : ℤ) (cur tgt : List ℝ)
    (text : Option (List ℝ)) :
    sectionChange mr 1 0 selExp cur tgt text =
    { tgt := bufSet tgt (fillBuf (fallPoint cur) PARTICLE_COUNT), cur := cur,
      camX := 0, camY := 0, camZ := 20,
      pendingFallText := true, instantCamera := false, particleSize := 0.12 } := by
  unfold sectionChange
  norm_num

/-- C7: on a section change from the terrain section (1) to the hero section
(0), TARGET is replaced so that for every particle the x and z slots are taken
unchanged from CURRENT and the y slot is −12 − 4 × group with
group = ⌊seededRandom(i × 99.7) × 10⌋ ∈ {0,…,9}; the delayed-text flag is
scheduled, and when the timeout fires the text shape is installed only if the
section is still 0 and TARGET is left untouched otherwise. -/
theorem C7_terrain_to_hero_fall (mr : MathRand) (selExp : ℤ) (cur tgt : List ℝ)
    (text : Option (List ℝ)) (htgt : tgt.length = 3 * PARTICLE_COUNT) :
    (∀ i, i < PARTICLE_COUNT →
      (sectionChange mr 1 0 selExp cur tgt text).tgt[3 * i]? = some (cur.getD (3 * i) 0) ∧
      (sectionChange mr 1 0 selExp cur tgt text).tgt[3 * i + 1]? =
        some (-12 - (⌊seededRandom ((i : ℝ) * 99.7) * 10⌋ : ℝ) * 4) ∧
      (sectionChange mr 1 0 selExp cur tgt text).tgt[3 * i + 2]? =
        some (cur.getD (3 * i + 2) 0) ∧
      0 ≤ ⌊seededRandom ((i : ℝ) * 99.7) * 10⌋ ∧
      ⌊seededRandom ((i : ℝ) * 99.7) * 10⌋ ≤ 9) ∧
    (sectionChange mr 1 0 selExp cur tgt text).pendingFallText = true ∧
    (∀ (tgtAtFire textBuf : List ℝ), textBuf.length = tgtAtFire.length →
      delayedTextInstall 0 tgtAtFire (some textBuf) = textBuf) ∧
    (∀ (sAtFire : ℤ) (tgtAtFire : List ℝ) (textAtFire : Option (List ℝ)), sAtFire ≠ 0 →
      delayedTextInstall sAtFire tgtAtFire textAtFire = tgtAtFire) := by
  have hres := sectionChange_one_zero mr selExp cur tgt text
  refine ⟨?_, ?_, ?_, ?_⟩
  · intro i hi
    have hslots := getElem?_fillBuf (fallPoint cur) PARTICLE_COUNT i hi
    have htg : (sectionChange mr 1 0 selExp cur tgt text).tgt =
        fillBuf (fallPoint cur) PARTICLE_COUNT := by
      have h1 : (sectionChange mr 1 0 selExp cur tgt text).tgt =
          bufSet tgt (fillBuf (fallPoint cur) PARTICLE_COUNT) :=
        congrArg SectionResult.tgt hres
      rw [h1]
      exact bufSet_eq_of_length tgt _ (by rw [length_fillBuf, htgt])
    refine ⟨?_, ?_, ?_, ?_, ?_⟩
    · conv_lhs => rw [htg]
      exact hslots.1
    · conv_lhs => rw [htg]
      exact hslots.2.1
    · conv_lhs => rw [htg]
      exact hslots.2.2
    · exact Int.floor_nonneg.mpr (mul_nonneg (seededRandom_nonneg _) (by norm_num))
    · have hlt : seededRandom ((i : ℝ) * 99.7) * 10 < 10 := by
        have := seededRandom_lt_one ((i : ℝ) * 99.7)
        nlinarith [seededRandom_nonneg ((i : ℝ) * 99.7)]
      have hfl : ⌊seededRandom ((i : ℝ) * 99.7) * 10⌋ < (10 : ℤ) :=
        Int.floor_lt.mpr (by push_cast; exact hlt)
      omega
  · exact congrArg SectionResult.pendingFallText hres
  · intro tgtAtFire textBuf hlen
    unfold delayedTextInstall
    rw [if_pos rfl]
    simp only [Option.getD_some]
    exact bufSet_eq_of_length _ _ hlen
  · intro sAtFire tgtAtFire textAtFire hne
    unfold delayedTextInstall
    rw [if_neg hne]

/-- Witness for C7 with concrete zero buffers: the fall target is pending and
particle 0's y slot holds the staggered fall depth. -/
theorem C7_terrain_to_hero_fall_witness :
    (sectionChange (fun _ _ => 0) 1 0 0 (zeroBuf PARTICLE_COUNT) (zeroBuf PARTICLE_COUNT)
      none).pendingFallText = true ∧
    (sectionChange (fun _ _ => 0) 1 0 0 (zeroBuf PARTICLE_COUNT) (zeroBuf PARTICLE_COUNT)
      none).tgt[1]? = some (-12 - (⌊seededRandom ((0 : ℝ) * 99.7) * 10⌋ : ℝ) * 4) := by
  have h := C7_terrain_to_hero_fall (fun _ _ => 0) 0 (zeroBuf PARTICLE_COUNT)
    (zeroBuf PARTICLE_COUNT) none (by simp [zeroBuf])
  refine ⟨h.2.1, ?_⟩
  have h0 := (h.1 0 (by norm_num [PARTICLE_COUNT])).2.1
  simpa using h0

theorem length_heaventreeBuf : heaventreeBuf.length = 3 * PARTICLE_COUNT := by
  rw [heaventreeBuf_eq]
  exact length_fillBuf _ _

/-- C9: for every integer `selectedExperience` outside {0,…,4} — negative
values included — a section-5 change falls back to experience entity 0: the
new TARGET is the heaventree shape (expShapes[0]) and the camera pose is
entity 0's (3.5, 0.3, 8), set instantly; being a total function, the update
cannot throw. -/
theorem C9_experience_fallback (mr : MathRand) (prev selExp : ℤ) (cur tgt : List ℝ)
    (text : Option (List ℝ)) (htgt : tgt.length = 3 * PARTICLE_COUNT)
    (hout : selExp < 0 ∨ 5 ≤ selExp) :
    (sectionChange mr prev 5 selExp cur tgt text).tgt = heaventreeBuf ∧
    (sectionChange mr prev 5 selExp cur tgt text).camX = 3.5 ∧
    (sectionChange mr prev 5 selExp cur tgt text).camY = 0.3 ∧
    (sectionChange mr prev 5 selExp cur tgt text).camZ = 8 ∧
    (sectionChange mr prev 5 selExp cur tgt text).instantCamera = true := by
  have hshapes : jsIndexOr expShapesBufs selExp heaventreeBuf = heaventreeBuf := by
    unfold jsIndexOr
    rw [dif_neg]
    intro ⟨hge, hlt⟩
    simp only [expShapesBufs, List.length_cons, List.length_nil] at hlt
    omega
  have hpos : jsIndexOr expPositions selExp ((3.5 : ℝ), (0.3 : ℝ), (8 : ℝ)) =
      ((3.5 : ℝ), (0.3 : ℝ), (8 : ℝ)) := by
    unfold jsIndexOr
    rw [dif_neg]
    intro ⟨hge, hlt⟩
    simp only [expPositions, List.length_cons, List.length_nil] at hlt
    omega
  have hres : sectionChange mr prev 5 selExp cur tgt text =
      { tgt := bufSet tgt (jsIndexOr expShapesBufs selExp heaventreeBuf), cur := cur,
        camX := (jsIndexOr expPositions selExp ((3.5 : ℝ), (0.3 : ℝ), (8 : ℝ))).1,
        camY := (jsIndexOr expPositions selExp ((3.5 : ℝ), (0.3 : ℝ), (8 : ℝ))).2.1,
        camZ := (jsIndexOr expPositions selExp ((3.5 : ℝ), (0.3 : ℝ), (8 : ℝ))).2.2,
        pendingFallText := false, instantCamera := true, particleSize := 0.04 } := by
    unfold sectionChange
    norm_num
  rw [hres, hshapes, hpos]
  refine ⟨?_, rfl, rfl, rfl, rfl⟩
  exact bufSet_eq_of_length tgt heaventreeBuf (by rw [length_heaventreeBuf, htgt])

/-- Witness for C9 at the concrete out-of-range selector −3. -/
theorem C9_experience_fallback_witness :
    (sectionChange (fun _ _ => 0) 0 5 (-3) (zeroBuf PARTICLE_COUNT) (zeroBuf PARTICLE_COUNT)
      none).tgt = heaventreeBuf ∧
    (sectionChange (fun _ _ => 0) 0 5 (-3) (zeroBuf PARTICLE_COUNT) (zeroBuf PARTICLE_COUNT)
      none).camX = 3.5 := by
  have h := C9_experience_fallback (fun _ _ => 0) 0 (-3) (zeroBuf PARTICLE_COUNT)
    (zeroBuf PARTICLE_COUNT) none (by simp [zeroBuf]) (Or.inl (by norm_num))
  exact ⟨h.1, h.2.1⟩

/-- SCROLL_COOLDOWN from the page controller: 1.5 s cooldown after a scroll. -/
def SCROLL_COOLDOWN : ℤ := 1500

/-- WheelState models the refs read and written by `handleWheel`:
`lockStartTime.current` (0 = never locked / reset) and
`currentSectionRef.current`.  (`isScrolling.current` is also set by the
handler but never consulted by the wheel path, so it does not influence the
transition decision.) -/
structure WheelState where
  lockStartTime : ℤ
  sectionIdx : ℤ

/-- handleWheel from the page controller (src/unnamed/part_001): drop the
event if the last lock is less than SCROLL_COOLDOWN old; otherwise engage the
lock at `now`, compute the direction from the wheel delta and the next
section; out-of-bounds requests (below 0, above 3, or issued while on
section 4) unlock immediately and reset the timer, in-bounds requests apply
the section change.  `now` is `Date.now()` (milliseconds, positive on any
real clock). -/
noncomputable def handleWheel (s : WheelState) (now : ℤ) (deltaY : ℝ) : WheelState :=
  if s.lockStartTime > 0 ∧ now - s.lockStartTime < SCROLL_COOLDOWN then s
  else
    let locked : WheelState := { s with lockStartTime := now }
    let direction : ℤ := if deltaY > 0 then 1 else -1
    let nextSection : ℤ := s.sectionIdx + direction
    if nextSection < 0 ∨ nextSection > 3 ∨ s.sectionIdx = 4 then
      { locked with lockStartTime := 0 }
    else
      { locked with sectionIdx := nextSection }

/-- wheelDir is the direction a wheel delta maps to: `e.deltaY > 0 ? 1 : -1`. -/
noncomputable def wheelDir (deltaY : ℝ) : ℤ := if deltaY > 0 then 1 else -1

/-- wheelInBounds states that a request with delta `d` is in bounds at state
`s`: the next section stays within 0..3 and the current section is not 4. -/
def wheelInBounds (s : WheelState) (dir : ℤ) : Prop :=
  0 ≤ s.sectionIdx + dir ∧ s.sectionIdx + dir ≤ 3 ∧ s.sectionIdx ≠ 4

theorem handleWheel_applied (s : WheelState) (now : ℤ) (deltaY : ℝ)
    (hfree : ¬(s.lockStartTime > 0 ∧ now - s.lockStartTime < SCROLL_COOLDOWN))
    (hin : wheelInBounds s (wheelDir deltaY)) :
    handleWheel s now deltaY =
      { lockStartTime := now, sectionIdx := s.sectionIdx + wheelDir deltaY } := by
  unfold handleWheel
  rw [if_neg hfree]
  obtain ⟨h0, h3, h4⟩ := hin
  unfold wheelDir at h0 h3
  rw [if_neg (by push_neg; exact ⟨by omega, by omega, h4⟩)]
  unfold wheelDir
  rfl

theorem handleWheel_dropped (s : WheelState) (now : ℤ) (deltaY : ℝ)
    (hlock : s.lockStartTime > 0) (hsoon : now - s.lockStartTime < SCROLL_COOLDOWN) :
    handleWheel s now deltaY = s := by
  unfold handleWheel
  rw [if_pos ⟨hlock, hsoon⟩]

/-- C8: for the wheel-driven section changer, two in-bounds requests less
than SCROLL_COOLDOWN = 1500 ms apart yield exactly one applied transition —
the first is applied, the second is dropped outright (the state, lock
included, is completely unchanged; nothing is queued) — and a third in-bounds
request arriving once the cooldown measured from the applied transition has
elapsed is applied.  The first timestamp is positive (it is `Date.now()`) and
the controller starts unlocked (`lockStartTime = 0`). -/
theorem C8_wheel_cooldown (s0 : WheelState) (t1 t2 t3 : ℤ) (d1 d2 d3 : ℝ)
    (hinit : s0.lockStartTime = 0) (ht1 : 0 < t1)
    (h12 : t2 - t1 < SCROLL_COOLDOWN) (h13 : SCROLL_COOLDOWN ≤ t3 - t1)
    (hb1 : wheelInBounds s0 (wheelDir d1))
    (hb3 : wheelInBounds ⟨t1, s0.sectionIdx + wheelDir d1⟩ (wheelDir d3)) :
    handleWheel s0 t1 d1 = ⟨t1, s0.sectionIdx + wheelDir d1⟩ ∧
    handleWheel (handleWheel s0 t1 d1) t2 d2 = handleWheel s0 t1 d1 ∧
    handleWheel (handleWheel (handleWheel s0 t1 d1) t2 d2) t3 d3 =
      ⟨t3, s0.sectionIdx + wheelDir d1 + wheelDir d3⟩ := by
  have h1 : handleWheel s0 t1 d1 = ⟨t1, s0.sectionIdx + wheelDir d1⟩ := by
    have := handleWheel_applied s0 t1 d1 (by rw [hinit]; simp) hb1
    exact this
  have h2 : handleWheel (handleWheel s0 t1 d1) t2 d2 = handleWheel s0 t1 d1 := by
    rw [h1]
    exact handleWheel_dropped _ t2 d2 ht1 (by simpa using h12)
  refine ⟨h1, h2, ?_⟩
  rw [h2, h1]
  have h3 := handleWheel_applied ⟨t1, s0.sectionIdx + wheelDir d1⟩ t3 d3
    (by intro ⟨_, hc⟩; simp only at hc; omega) hb3
  simpa using h3

/-- Witness for C8: starting unlocked on section 1, scroll-down requests at
1000 ms and 2000 ms (1000 ms apart, inside the 1500 ms cooldown) and a third
at 2500 ms (1500 ms after the applied one): the first moves 1 → 2, the second
is dropped, the third moves 2 → 3. -/
theorem C8_wheel_cooldown_witness :
    handleWheel ⟨0, 1⟩ 1000 1 = ⟨1000, 1 + wheelDir 1⟩ ∧
    handleWheel (handleWheel ⟨0, 1⟩ 1000 1) 2000 1 = handleWheel ⟨0, 1⟩ 1000 1 ∧
    handleWheel (handleWheel (handleWheel ⟨0, 1⟩ 1000 1) 2000 1) 2500 1 =
      ⟨2500, 1 + wheelDir 1 + wheelDir 1⟩ := by
  have hd : wheelDir (1 : ℝ) = 1 := by unfold wheelDir; rw [if_pos (by norm_num)]
  exact C8_wheel_cooldown ⟨0, 1⟩ 1000 2000 2500 1 1 1 rfl (by norm_num)
    (by norm_num [SCROLL_COOLDOWN]) (by norm_num [SCROLL_COOLDOWN])
    (by constructor <;> simp [hd])
    (by constructor <;> simp [hd])

/-- originDist is the Euclidean distance of a point from the origin. -/
noncomputable def originDist (x y z : ℝ) : ℝ := Real.sqrt (x ^ 2 + y ^ 2 + z ^ 2)

theorem originDist_radial (r phi theta : ℝ) (hr : 0 ≤ r) :
    originDist (r * Real.sin phi * Real.cos theta) (r * Real.sin phi * Real.sin theta)
      (r * Real.cos phi) = r := by
  unfold originDist
  have h1 := Real.cos_sq_add_sin_sq theta
  have h2 := Real.sin_sq_add_cos_sq phi
  have h : (r * Real.sin phi * Real.cos theta) ^ 2 + (r * Real.sin phi * Real.sin theta) ^ 2 +
      (r * Real.cos phi) ^ 2 = r ^ 2 := by
    calc (r * Real.sin phi * Real.cos theta) ^ 2 + (r * Real.sin phi * Real.sin theta) ^ 2 +
          (r * Real.cos phi) ^ 2
        = r ^ 2 * (Real.sin phi ^ 2 * (Real.cos theta ^ 2 + Real.sin theta ^ 2) +
            Real.cos phi ^ 2) := by ring
      _ = r ^ 2 * (Real.sin phi ^ 2 + Real.cos phi ^ 2) := by rw [h1]; ring
      _ = r ^ 2 := by rw [h2]; ring
  rw [h, Real.sqrt_sq hr]

theorem spherePoint_eq_visible (i : ℕ) (hi : i < visibleParticles) :
    spherePoint i =
      (3 * Real.sin (Real.arccos (1 - 2 * ((i : ℝ) + 0.5) / (visibleParticles : ℝ))) *
         Real.cos (Real.pi * (1 + Real.sqrt 5) * ((i : ℝ) + 0.5)),
       3 * Real.sin (Real.arccos (1 - 2 * ((i : ℝ) + 0.5) / (visibleParticles : ℝ))) *
         Real.sin (Real.pi * (1 + Real.sqrt 5) * ((i : ℝ) + 0.5)),
       3 * Real.cos (Real.arccos (1 - 2 * ((i : ℝ) + 0.5) / (visibleParticles : ℝ)))) := by
  unfold spherePoint
  rw [if_pos hi]

theorem spherePoint_eq_cloud (i : ℕ) (hi : ¬i < visibleParticles) :
    spherePoint i =
      ((15 + seededRandom ((i : ℝ) * 9.9) * 20) *
         Real.sin (Real.arccos (1 - 2 * seededRandom ((i : ℝ) * 7.7))) *
         Real.cos (seededRandom ((i : ℝ) * 8.8) * Real.pi * 2),
       (15 + seededRandom ((i : ℝ) * 9.9) * 20) *
         Real.sin (Real.arccos (1 - 2 * seededRandom ((i : ℝ) * 7.7))) *
         Real.sin (seededRandom ((i : ℝ) * 8.8) * Real.pi * 2),
       (15 + seededRandom ((i : ℝ) * 9.9) * 20) *
         Real.cos (Real.arccos (1 - 2 * seededRandom ((i : ℝ) * 7.7)))) := by
  unfold spherePoint
  rw [if_neg hi]

/-- C10: in the sphere generator's output, the first 8000 particles each sit
at distance exactly 3 from the origin (the visible globe), and every
remaining particle sits at a distance in [15, 35) (the sparse background
cloud) — in particular no background particle touches the globe, so exactly
the first 8000 lie on the sphere of radius 3. -/
theorem C10_sphere_split (mr : MathRand) (i : ℕ) (hi : i < PARTICLE_COUNT) :
    ∃ x y z : ℝ,
      (generateSpherePositions mr)[3 * i]? = some x ∧
      (generateSpherePositions mr)[3 * i + 1]? = some y ∧
      (generateSpherePositions mr)[3 * i + 2]? = some z ∧
      (i < 8000 → originDist x y z = 3) ∧
      (8000 ≤ i → 15 ≤ originDist x y z ∧ originDist x y z < 35) := by
  obtain ⟨h0, h1, h2⟩ := getElem?_fillBuf spherePoint PARTICLE_COUNT i hi
  refine ⟨(spherePoint i).1, (spherePoint i).2.1, (spherePoint i).2.2, h0, h1, h2, ?_, ?_⟩
  · intro hvis
    have hv : i < visibleParticles := by simpa [visibleParticles] using hvis
    rw [spherePoint_eq_visible i hv]
    exact originDist_radial 3 _ _ (by norm_num)
  · intro hcloud
    have hnv : ¬i < visibleParticles := by simp [visibleParticles]; omega
    rw [spherePoint_eq_cloud i hnv]
    have hr0 : (0 : ℝ) ≤ seededRandom ((i : ℝ) * 9.9) := seededRandom_nonneg _
    have hr1 : seededRandom ((i : ℝ) * 9.9) < 1 := seededRandom_lt_one _
    have hrad := originDist_radial (15 + seededRandom ((i : ℝ) * 9.9) * 20)
      (Real.arccos (1 - 2 * seededRandom ((i : ℝ) * 7.7)))
      (seededRandom ((i : ℝ) * 8.8) * Real.pi * 2) (by linarith)
    rw [hrad]
    constructor <;> nlinarith

/-- Witness for C10 at the concrete particle 0 (a globe particle). -/
theorem C10_sphere_split_witness :
    ∃ x y z : ℝ,
      (generateSpherePositions (fun _ _ => 0))[3 * 0]? = some x ∧
      (generateSpherePositions (fun _ _ => 0))[3 * 0 + 1]? = some y ∧
      (generateSpherePositions (fun _ _ => 0))[3 * 0 + 2]? = some z ∧
      (0 < 8000 → originDist x y z = 3) ∧
      (8000 ≤ 0 → 15 ≤ originDist x y z ∧ originDist x y z < 35) :=
  C10_sphere_split (fun _ _ => 0) 0 (by norm_num [PARTICLE_COUNT])
